import Mathlib

/-!
# Verification of the campus lost-and-found matching and negotiation engine

Shallow embedding of `campus_lost_and_found` (models.py, config.py, services.py,
main.py, agents.py).  Database tables are modelled as Lean lists, SQLAlchemy ORM
objects as structures, machine floats as exact rationals, and HTTP endpoints as
functions `DB → ... → Except Nat DB` where the error value is the HTTP status
code raised by `HTTPException` (the database session is rolled back on an
exception before any commit, so an error returns no new database state).
-/

namespace CampusLF

/-- models.py `ItemType`. -/
inductive ItemType where
  | LOST
  | FOUND
deriving DecidableEq, Repr

/-- models.py `ItemStatus`. -/
inductive ItemStatus where
  | OPEN
  | MATCHING
  | NEGOTIATING
  | MATCHED
  | CLOSED
deriving DecidableEq, Repr

/-- models.py `NegotiationStatus`. -/
inductive NegotiationStatus where
  | ACTIVE
  | SUCCESS
  | FAILED
  | PENDING_CONFIRM
  | CONFIRMED
  | REJECTED
  | SCHEDULE_PENDING
  | WAITING_RETURN
  | RETURNED
  | RETURN_FAILED
deriving DecidableEq, Repr

/-- models.py `Item`.  `description` is a non-nullable column;
`ai_description` and `location` are nullable.  Timestamps are irrelevant to
every claim and are omitted. -/
structure Item where
  id : Nat
  title : String
  description : String
  ai_description : Option String
  itemType : ItemType
  status : ItemStatus
  location : Option String
  owner_id : Nat
deriving DecidableEq, Repr

/-- One entry of a session's JSON `chat_log`.  `agents.py` `execute` always
writes a `sender` key; `content` and `action_type` come from `dict.get` and
may be absent (`force_match` appends an entry with no `action_type` at all). -/
structure Msg where
  sender : String
  content : Option String
  action_type : Option String
deriving DecidableEq, Repr

/-- models.py `NegotiationSession`.  The two item references are nullable
(`confirm_return` nulls them before deleting the items); the two
human-confirmation flags are tri-state (`None` = not yet confirmed). -/
structure NegotiationSession where
  id : Nat
  lost_item_id : Option Nat
  found_item_id : Option Nat
  status : NegotiationStatus
  match_score : ℚ
  chat_log : List Msg
  seeker_confirmed : Option Bool
  finder_confirmed : Option Bool
deriving DecidableEq, Repr

/-- models.py `FailedMatch` (the primary key plays no role in the logic and is
omitted). -/
structure FailedMatch where
  lost_item_id : Option Nat
  found_item_id : Option Nat
  session_id : Option Nat
  reason : Option String
deriving DecidableEq, Repr

/-- models.py `ReturnSchedule`.  `status` is a plain string column taking the
values "PENDING"/"APPROVED"/"REJECTED"; the two return-confirmation flags
default to `false`.  The proposed time is modelled as a natural number. -/
structure ReturnSchedule where
  session_id : Nat
  proposed_time : Nat
  proposed_location : String
  notes : Option String
  status : String
  reject_reason : Option String
  seeker_confirmed : Bool
  finder_confirmed : Bool
deriving DecidableEq, Repr

/-- models.py `ItemImage` (id and upload time omitted). -/
structure ItemImage where
  item_id : Nat
  image_path : String
deriving DecidableEq, Repr

/-- The database state: one list per table used by the claims. -/
structure DB where
  items : List Item
  sessions : List NegotiationSession
  failedMatches : List FailedMatch
  schedules : List ReturnSchedule
  images : List ItemImage
deriving DecidableEq, Repr

/-- config.py `MAX_NEGOTIATION_ROUNDS`. -/
def MAX_NEGOTIATION_ROUNDS : Nat := 20

/-- config.py `MIN_MATCH_SCORE`. -/
def MIN_MATCH_SCORE : ℚ := 3/10

-- ==================== basic database accessors ====================

/-- `db.query(Item).get(i)`: first item with the given primary key. -/
def DB.getItem (db : DB) (i : Nat) : Option Item :=
  db.items.find? (fun it => it.id = i)

/-- `db.query(NegotiationSession).get(i)`. -/
def DB.getSession (db : DB) (i : Nat) : Option NegotiationSession :=
  db.sessions.find? (fun s => s.id = i)

/-- Resolve a session's nullable item reference, like the SQLAlchemy
relationship `session.lost_item` / `session.found_item`. -/
def DB.getItemRef (db : DB) (r : Option Nat) : Option Item :=
  r.bind db.getItem

/-- Python truthiness `if session.lost_item and session.lost_item.owner_id ==
current_user.user_id`. -/
def DB.refOwnedBy (db : DB) (r : Option Nat) (uid : Nat) : Bool :=
  match db.getItemRef r with
  | some it => it.owner_id = uid
  | none => false

/-- Mutate the item with the given id in place (ORM object update). -/
def DB.setItemStatus (db : DB) (i : Nat) (st : ItemStatus) : DB :=
  { db with items := db.items.map (fun it => if it.id = i then { it with status := st } else it) }

/-- Mutate the session with the given id in place (ORM object update). -/
def DB.updSession (db : DB) (i : Nat) (f : NegotiationSession → NegotiationSession) : DB :=
  { db with sessions := db.sessions.map (fun s => if s.id = i then f s else s) }

/-- Mutate the schedule row(s) of the given session in place. -/
def DB.updSchedule (db : DB) (sid : Nat) (f : ReturnSchedule → ReturnSchedule) : DB :=
  { db with schedules := db.schedules.map (fun c => if c.session_id = sid then f c else c) }

/-- Python truthiness of a tri-state confirmation flag:
`None` and `False` are falsy, only `True` is truthy. -/
def truthy : Option Bool → Bool
  | some true => true
  | _ => false

-- ==================== MatchService (services.py 31-167) ====================

/-- The text-similarity oracle standing for
`MatchService._calculate_similarity` (TF-IDF cosine similarity, with a
Jaccard keyword fallback).  Both implementations return a value in [0,1];
the scoring claims are proved for every such function. -/
abbrev SimFun := String → String → ℚ

/-- Round-half-to-even on rationals, the tie-breaking rule of Python's
built-in `round`. -/
def roundHalfEven (q : ℚ) : ℤ :=
  let f := ⌊q⌋
  let r := q - f
  if r < 1/2 then f
  else if 1/2 < r then f + 1
  else if f % 2 = 0 then f else f + 1

/-- Python `round(x, 4)`. -/
def pyRound4 (q : ℚ) : ℚ :=
  (roundHalfEven (q * 10000) : ℚ) / 10000

/-- The parallel `scores`/`weights` lists built by services.py 90-120,
represented as one list of (score, weight) pairs, appended to in exactly
the source's order: title always; description, AI description and
location only when both sides are non-empty (`desc1 and desc2` on strings
is Python truthiness, i.e. both non-empty; a nullable column is first
defaulted to `""` by `x or ""`). -/
def matchPairs (sim : SimFun) (lost found : Item) : List (ℚ × ℚ) :=
  let sw : List (ℚ × ℚ) := [(sim lost.title found.title, 3/10)]
  let d1 := lost.description
  let d2 := found.description
  let sw := if d1 ≠ "" ∧ d2 ≠ "" then sw ++ [(sim d1 d2, 3/10)] else sw
  let a1 := lost.ai_description.getD ""
  let a2 := found.ai_description.getD ""
  let sw := if a1 ≠ "" ∧ a2 ≠ "" then sw ++ [(sim a1 a2, 3/10)] else sw
  let l1 := lost.location.getD ""
  let l2 := found.location.getD ""
  if l1 ≠ "" ∧ l2 ≠ "" then sw ++ [(sim l1 l2, 1/10)] else sw

/-- services.py 85-129 `MatchService.calculate_match_score`: the weighted
average of the accumulated (score, weight) pairs, rounded to 4 decimal
places (`round(weighted_score, 4)`), and 0.0 for an empty accumulation. -/
def calculate_match_score (sim : SimFun) (lost found : Item) : ℚ :=
  let sw := matchPairs sim lost found
  if sw = [] then 0
  else
    let total_weight := (sw.map (fun p => p.2)).sum
    let weighted_score := (sw.map (fun p => p.1 * p.2)).sum / total_weight
    pyRound4 weighted_score

/-- Stable insertion keeping scores in descending order: an element is
inserted after every element of score ≥ its own. -/
def insertByScore (p : Item × ℚ) : List (Item × ℚ) → List (Item × ℚ)
  | [] => [p]
  | q :: rest => if q.2 < p.2 then p :: q :: rest else q :: insertByScore p rest

/-- Python's stable `list.sort(key=score, reverse=True)`. -/
def sortByScoreDesc : List (Item × ℚ) → List (Item × ℚ)
  | [] => []
  | p :: rest => insertByScore p (sortByScoreDesc rest)

/-- services.py 131-167 `MatchService.find_matches`: collect the found-item
ids of every `FailedMatch` row for this lost item; query FOUND items with
status OPEN or MATCHING and a different owner; exclude the failed ids (the
`notin_` filter is only added when the id list is non-empty); score each
candidate, keep those at or above `MIN_MATCH_SCORE`, sort by score
descending, truncate to `limit`. -/
def find_matches (db : DB) (sim : SimFun) (lost : Item) (limit : Nat) : List (Item × ℚ) :=
  let failed_ids : List (Option Nat) :=
    (db.failedMatches.filter (fun f => f.lost_item_id = some lost.id)).map (fun f => f.found_item_id)
  let query := db.items.filter (fun it =>
    it.itemType = ItemType.FOUND ∧
    (it.status = ItemStatus.OPEN ∨ it.status = ItemStatus.MATCHING) ∧
    it.owner_id ≠ lost.owner_id)
  let found_items := if failed_ids = [] then query
    else query.filter (fun it => ¬ some it.id ∈ failed_ids)
  let scored := found_items.filterMap (fun it =>
    let score := calculate_match_score sim lost it
    if MIN_MATCH_SCORE ≤ score then some (it, score) else none)
  (sortByScoreDesc scored).take limit

-- ============ NegotiationService turn loop (services.py 170-314) ============

/-- The role tag of an agent (`agents.py`: `SeekerAgent` has role "Seeker",
`FinderAgent` has role "Finder"). -/
inductive Role where
  | seeker
  | finder
deriving DecidableEq, Repr

/-- The `sender` string written by `BaseAgent.execute`. -/
def Role.str : Role → String
  | .seeker => "Seeker"
  | .finder => "Finder"

/-- The untrusted decision backend (`LLMInterface.generate_response` as used
through `BaseAgent.decide`): from the acting agent's role and its memory —
which the loop keeps synchronized with the session chat log — produce a
decision dict, i.e. optional "action" and "content" fields. -/
abbrev Decider := Role → List Msg → Option String × Option String

/-- agents.py 243-258 `BaseAgent.execute`: wrap a decision into an outgoing
message stamped with the agent's role. -/
def execute (r : Role) (d : Option String × Option String) : Msg :=
  { sender := r.str, content := d.2, action_type := d.1 }

/-- services.py 236-240: the agent that did NOT send the most recent turn
speaks next; on an empty transcript (`last_sender = None`) the test
`last_sender != "Seeker"` holds, so the seeker opens. -/
def pickRole (log : List Msg) : Role :=
  match log.getLast? with
  | some m => if m.sender ≠ "Seeker" then .seeker else .finder
  | none => .seeker

/-- One turn: pick the speaker, let it decide on the current transcript and
execute the decision (services.py 236-244). -/
def produce (d : Decider) (log : List Msg) : Msg :=
  execute (pickRole log) (d (pickRole log) log)

/-- Result tag of `run_full_negotiation` (the "status" key of its return
dict): "SUCCESS", "FAILED", or "MAX_ROUNDS". -/
inductive NegoOutcome where
  | success
  | failed
  | maxRounds
deriving DecidableEq, Repr

/-- services.py 234-291, the `for round_num in range(MAX_NEGOTIATION_ROUNDS)`
loop: each iteration appends one produced message to the chat log; action
"AGREE" returns SUCCESS, action "REJECT" returns FAILED, any other action
continues; an exhausted range returns MAX_ROUNDS.  `used` counts the
messages produced so far (`round_num + 1` at a terminating turn,
`MAX_NEGOTIATION_ROUNDS` on exhaustion). -/
def runNegoAux (d : Decider) : Nat → List Msg → Nat → List Msg × NegoOutcome × Nat
  | 0, log, used => (log, .maxRounds, used)
  | fuel + 1, log, used =>
    let m := produce d log
    let log' := log ++ [m]
    if m.action_type = some "AGREE" then (log', .success, used + 1)
    else if m.action_type = some "REJECT" then (log', .failed, used + 1)
    else runNegoAux d fuel log' (used + 1)

/-- The session status written at the end of the loop: PENDING_CONFIRM on
SUCCESS, FAILED on REJECT and on round exhaustion. -/
def NegoOutcome.finalStatus : NegoOutcome → NegotiationStatus
  | .success => .PENDING_CONFIRM
  | .failed => .FAILED
  | .maxRounds => .FAILED

/-- The "status" string of the result dict, passed to `handle_failure` as the
failure reason by `run_auto_matching`. -/
def NegoOutcome.str : NegoOutcome → String
  | .success => "SUCCESS"
  | .failed => "FAILED"
  | .maxRounds => "MAX_ROUNDS"

/-- services.py 222-291 `NegotiationService.run_full_negotiation`: reject a
missing or non-ACTIVE session, otherwise run the turn loop starting from
the stored chat log and commit the final chat log, status and round count. -/
def run_full_negotiation (db : DB) (d : Decider) (sid : Nat) :
    Except String (DB × NegoOutcome × Nat) :=
  match db.getSession sid with
  | none => .error "invalid session"
  | some s =>
    if s.status ≠ NegotiationStatus.ACTIVE then .error "invalid session"
    else
      let r := runNegoAux d MAX_NEGOTIATION_ROUNDS s.chat_log 0
      .ok (db.updSession sid (fun t => { t with chat_log := r.1, status := r.2.1.finalStatus }),
           r.2.1, r.2.2)

/-- services.py 293-297 `NegotiationService.handle_success`: mark both items
MATCHED.  Dereferencing a missing item raises (`AttributeError` on `None`),
which rolls the transaction back: modelled as error 500 with no new state. -/
def handle_success (db : DB) (sid : Nat) : Except Nat DB :=
  match db.getSession sid with
  | none => .error 500
  | some s =>
    match db.getItemRef s.lost_item_id, db.getItemRef s.found_item_id with
    | some li, some fi =>
      .ok ((db.setItemStatus li.id .MATCHED).setItemStatus fi.id .MATCHED)
    | _, _ => .error 500

/-- services.py 299-314 `NegotiationService.handle_failure`: insert a
`FailedMatch` row for the session's pair and revert both items to OPEN.
As in `handle_success`, a missing item reference raises before commit. -/
def handle_failure (db : DB) (sid : Nat) (reason : Option String) : Except Nat DB :=
  match db.getSession sid with
  | none => .error 500
  | some s =>
    match db.getItemRef s.lost_item_id, db.getItemRef s.found_item_id with
    | some li, some fi =>
      let db := { db with failedMatches := db.failedMatches ++
        [({ lost_item_id := s.lost_item_id, found_item_id := s.found_item_id,
            session_id := some sid, reason := reason } : FailedMatch)] }
      .ok ((db.setItemStatus li.id .OPEN).setItemStatus fi.id .OPEN)
    | _, _ => .error 500

/-- services.py 178-201 `NegotiationService.create_session`: lock both items
(when present) to NEGOTIATING and insert an ACTIVE session with an empty
chat log and unset confirmation flags.  `sid` is the fresh primary key the
database assigns. -/
def create_session (db : DB) (lostId foundId : Nat) (score : ℚ) (sid : Nat) : DB :=
  let db := (db.setItemStatus lostId .NEGOTIATING).setItemStatus foundId .NEGOTIATING
  { db with sessions := db.sessions ++
    [({ id := sid, lost_item_id := some lostId, found_item_id := some foundId,
        status := .ACTIVE, match_score := score, chat_log := [],
        seeker_confirmed := none, finder_confirmed := none } : NegotiationSession)] }

/-- The per-candidate body of the `for match in matches` loop of
services.py 388-423 `BackgroundTaskService.run_auto_matching`: create a
session, run the automatic negotiation, and on any non-SUCCESS result call
`handle_failure` (notifications are outside the modelled tables).  Returns
the new database and whether the candidate succeeded.  The error branches
are unreachable when `sid` is fresh and both items exist; they keep the
transaction-rollback semantics of the source. -/
def attemptCandidate (db : DB) (d : Decider) (sid lostId foundId : Nat) (score : ℚ) :
    DB × Bool :=
  let db1 := create_session db lostId foundId score sid
  match run_full_negotiation db1 d sid with
  | .ok (db2, out, _) =>
    if out = .success then (db2, true)
    else
      match handle_failure db2 sid (some out.str) with
      | .ok db3 => (db3, false)
      | .error _ => (db2, false)
  | .error _ =>
    match handle_failure db1 sid none with
    | .ok db3 => (db3, false)
    | .error _ => (db1, false)

-- ==================== main.py endpoint handlers ====================

/-- The tail of main.py 499-549 `confirm_item`, after the caller's flag has
been written: "not mine" sets REJECTED and calls `handle_failure`; "mine"
sets CONFIRMED and calls `handle_success` when both (updated) flags are
truthy, and otherwise just commits the flag.  The 500 branch is
unreachable (the session was found one step earlier). -/
def confirmTail (db : DB) (sid : Nat) (is_my_item : Bool) : Except Nat DB :=
  match db.getSession sid with
  | none => .error 500
  | some s =>
    if ¬ is_my_item then
      handle_failure (db.updSession sid (fun t => { t with status := .REJECTED })) sid
        (some "用户确认不是自己的物品")
    else if truthy s.seeker_confirmed ∧ truthy s.finder_confirmed then
      handle_success (db.updSession sid (fun t => { t with status := .CONFIRMED })) sid
    else .ok db

/-- main.py 499-549 `POST /negotiations/N/confirm` (`confirm_item`): find the
session (404), determine the caller's role from item ownership — the lost
side is tested first — writing `is_my_item` into that side's confirmation
flag, or 403 for a non-party; no check of the session status is made. -/
def confirm_item (db : DB) (uid sid : Nat) (is_my_item : Bool) : Except Nat DB :=
  match db.getSession sid with
  | none => .error 404
  | some s =>
    if db.refOwnedBy s.lost_item_id uid then
      confirmTail (db.updSession sid (fun t => { t with seeker_confirmed := some is_my_item }))
        sid is_my_item
    else if db.refOwnedBy s.found_item_id uid then
      confirmTail (db.updSession sid (fun t => { t with finder_confirmed := some is_my_item }))
        sid is_my_item
    else .error 403

/-- The audit entry `force_match` appends to the chat log (main.py 576-581):
sender "System", a fixed explanation, and no `action_type` key. -/
def forceMatchAudit : Msg :=
  { sender := "System",
    content := some "失主确认这是自己的物品，已强制标记为匹配成功。",
    action_type := none }

/-- main.py 552-588 `POST /negotiations/N/force-match` (`force_match`):
404 for a missing session, 403 unless the caller owns the lost item,
400 unless the session is FAILED or REJECTED; then set the session to
PENDING_CONFIRM with the seeker flag true and append the audit entry to
the chat log.  Nothing else is touched. -/
def force_match (db : DB) (uid sid : Nat) : Except Nat DB :=
  match db.getSession sid with
  | none => .error 404
  | some s =>
    if ¬ db.refOwnedBy s.lost_item_id uid then .error 403
    else if ¬ (s.status = .FAILED ∨ s.status = .REJECTED) then .error 400
    else .ok (db.updSession sid (fun t =>
      { t with status := .PENDING_CONFIRM, seeker_confirmed := some true,
               chat_log := t.chat_log ++ [forceMatchAudit] }))

/-- main.py 591-655 `POST /negotiations/N/schedule` (`create_schedule`):
404 for a missing session, 403 unless the caller owns the found item,
400 unless the session is CONFIRMED; a still-PENDING existing schedule is
rejected with 400, a rejected one is overwritten in place with the new
proposal, PENDING status and a cleared rejection reason, and otherwise a
fresh PENDING row is inserted; the session becomes SCHEDULE_PENDING. -/
def create_schedule (db : DB) (uid sid : Nat) (t : Nat) (loc : String)
    (notes : Option String) : Except Nat DB :=
  match db.getSession sid with
  | none => .error 404
  | some s =>
    if ¬ db.refOwnedBy s.found_item_id uid then .error 403
    else if s.status ≠ .CONFIRMED then .error 400
    else
      match db.schedules.find? (fun c => c.session_id = sid) with
      | some existing =>
        if existing.status = "PENDING" then .error 400
        else
          let db := db.updSchedule sid (fun c =>
            { c with proposed_time := t, proposed_location := loc, notes := notes,
                     status := "PENDING", reject_reason := none })
          .ok (db.updSession sid (fun u => { u with status := .SCHEDULE_PENDING }))
      | none =>
        let db := { db with schedules := db.schedules ++
          [({ session_id := sid, proposed_time := t, proposed_location := loc,
              notes := notes, status := "PENDING", reject_reason := none,
              seeker_confirmed := false, finder_confirmed := false } : ReturnSchedule)] }
        .ok (db.updSession sid (fun u => { u with status := .SCHEDULE_PENDING }))

/-- main.py 658-702 `POST /negotiations/N/schedule/approve`
(`approve_schedule`): 404 / 403 (seeker only) / 400 (SCHEDULE_PENDING
only); the PENDING schedule row of the session — at most one exists, the
`session_id` column is unique — becomes APPROVED and the session becomes
WAITING_RETURN. -/
def approve_schedule (db : DB) (uid sid : Nat) : Except Nat DB :=
  match db.getSession sid with
  | none => .error 404
  | some s =>
    if ¬ db.refOwnedBy s.lost_item_id uid then .error 403
    else if s.status ≠ .SCHEDULE_PENDING then .error 400
    else
      let db := { db with schedules := db.schedules.map (fun c : ReturnSchedule =>
        if c.session_id = sid ∧ c.status = "PENDING" then { c with status := "APPROVED" } else c) }
      .ok (db.updSession sid (fun u => { u with status := .WAITING_RETURN }))

/-- Python's `str.strip()`: drop leading and trailing whitespace.  Defined
structurally over the character list so that it evaluates by reduction. -/
def pyStrip (s : String) : String :=
  ⟨((s.data.dropWhile Char.isWhitespace).reverse.dropWhile Char.isWhitespace).reverse⟩

/-- main.py 709-758 `POST /negotiations/N/schedule/reject`
(`reject_schedule`): 404 / 403 (seeker only) / 400 (SCHEDULE_PENDING
only) / 400 when the stripped reason is empty; the PENDING schedule row
becomes REJECTED carrying the stripped reason and the session falls back
to CONFIRMED so the finder may re-propose. -/
def reject_schedule (db : DB) (uid sid : Nat) (reason : String) : Except Nat DB :=
  match db.getSession sid with
  | none => .error 404
  | some s =>
    if ¬ db.refOwnedBy s.lost_item_id uid then .error 403
    else if s.status ≠ .SCHEDULE_PENDING then .error 400
    else if pyStrip reason = "" then .error 400
    else
      let db := { db with schedules := db.schedules.map (fun c : ReturnSchedule =>
        if c.session_id = sid ∧ c.status = "PENDING" then
          { c with status := "REJECTED", reject_reason := some (pyStrip reason) } else c) }
      .ok (db.updSession sid (fun u => { u with status := .CONFIRMED }))

/-- main.py 761-778 `POST /negotiations/N/start-return` (`start_return`):
404 for a missing session, 400 unless the session is CONFIRMED, then the
session becomes WAITING_RETURN.  The handler performs no ownership check
at all: any authenticated user may invoke it. -/
def start_return (db : DB) (_uid sid : Nat) : Except Nat DB :=
  match db.getSession sid with
  | none => .error 404
  | some s =>
    if s.status ≠ .CONFIRMED then .error 400
    else .ok (db.updSession sid (fun u => { u with status := .WAITING_RETURN }))

/-- Deletion of an item's auxiliary rows in the RETURNED branch of
`confirm_return` (main.py 857-862): drop every `FailedMatch` row whose
lost or found id equals the item id and every `ItemImage` row of the item.
Mirrors `for item_id in [lost_item_id, found_item_id]: if item_id:` —
Python integer truthiness also skips id 0. -/
def DB.purgeItemRecords (db : DB) : Option Nat → DB
  | none => db
  | some i =>
    if i = 0 then db
    else { db with
      failedMatches := db.failedMatches.filter (fun f =>
        ¬ (f.lost_item_id = some i ∨ f.found_item_id = some i)),
      images := db.images.filter (fun g => ¬ g.item_id = i) }

/-- Deletion of the item row itself (main.py 869-873,
`if lost_item_id: db.query(Item).filter(Item.id == lost_item_id).delete()`). -/
def DB.deleteItemById (db : DB) : Option Nat → DB
  | none => db
  | some i =>
    if i = 0 then db
    else { db with items := db.items.filter (fun it => ¬ it.id = i) }

/-- main.py 781-878 `POST /negotiations/N/confirm-return` (`confirm_return`):
404 for a missing session, 400 unless WAITING_RETURN, 403 for a
non-party; the caller's boolean is written into both the session flag and
the schedule row flag (seeker side checked first).  A "not returned"
answer makes the session RETURN_FAILED, reverts both referenced items to
OPEN and records a FailedMatch.  Otherwise, when both session flags are
truthy after the update, the session becomes RETURNED, the auxiliary
rows of both items are purged, the session's item references are cleared
and both items are deleted; when not, only the flag update is kept. -/
def confirm_return (db : DB) (uid sid : Nat) (is_returned : Bool) : Except Nat DB :=
  match db.getSession sid with
  | none => .error 404
  | some s =>
    if s.status ≠ .WAITING_RETURN then .error 400
    else
      let is_seeker := db.refOwnedBy s.lost_item_id uid
      let is_finder := db.refOwnedBy s.found_item_id uid
      if ¬ (is_seeker ∨ is_finder) then .error 403
      else
        let db1 :=
          if is_seeker then
            ((db.updSchedule sid (fun c => { c with seeker_confirmed := is_returned })).updSession
              sid (fun t => { t with seeker_confirmed := some is_returned }))
          else
            ((db.updSchedule sid (fun c => { c with finder_confirmed := is_returned })).updSession
              sid (fun t => { t with finder_confirmed := some is_returned }))
        if ¬ is_returned then
          let db2 := db1.updSession sid (fun t => { t with status := .RETURN_FAILED })
          let db3 := match db2.getItemRef s.lost_item_id with
            | some li => db2.setItemStatus li.id .OPEN
            | none => db2
          let db4 := match db3.getItemRef s.found_item_id with
            | some fi => db3.setItemStatus fi.id .OPEN
            | none => db3
          .ok { db4 with failedMatches := db4.failedMatches ++
            [({ lost_item_id := (db4.getItemRef s.lost_item_id).map (fun it => it.id),
                found_item_id := (db4.getItemRef s.found_item_id).map (fun it => it.id),
                session_id := none, reason := some "线下确认不匹配" } : FailedMatch)] }
        else
          match db1.getSession sid with
          | none => .error 500
          | some s' =>
            if truthy s'.seeker_confirmed ∧ truthy s'.finder_confirmed then
              let db2 := db1.updSession sid (fun t => { t with status := .RETURNED })
              let lostId := (db2.getItemRef s.lost_item_id).map (fun it => it.id)
              let foundId := (db2.getItemRef s.found_item_id).map (fun it => it.id)
              let db3 := (db2.purgeItemRecords lostId).purgeItemRecords foundId
              let db4 := db3.updSession sid (fun t =>
                { t with lost_item_id := none, found_item_id := none })
              .ok ((db4.deleteItemById lostId).deleteItemById foundId)
            else .ok db1

-- ==================== helper lemmas on the database model ====================

theorem getItem_updSession (db : DB) (sid : Nat) (f : NegotiationSession → NegotiationSession)
    (i : Nat) : (db.updSession sid f).getItem i = db.getItem i := rfl

theorem getSession_setItemStatus (db : DB) (i : Nat) (st : ItemStatus) (sid : Nat) :
    (db.setItemStatus i st).getSession sid = db.getSession sid := rfl

theorem failedMatches_updSession (db : DB) (sid : Nat) (f : NegotiationSession → NegotiationSession) :
    (db.updSession sid f).failedMatches = db.failedMatches := rfl

theorem failedMatches_setItemStatus (db : DB) (i : Nat) (st : ItemStatus) :
    (db.setItemStatus i st).failedMatches = db.failedMatches := rfl

/-- `find?` by key commutes with an in-place update of the keyed row, for any
update that preserves the key. -/
theorem find?_map_update {α : Type} (key : α → Nat) (k : Nat) (f : α → α)
    (hf : ∀ a, key (f a) = key a) (l : List α) :
    (l.map (fun a => if key a = k then f a else a)).find? (fun a => key a = k) =
      (l.find? (fun a => key a = k)).map f := by
  induction l with
  | nil => rfl
  | cons a t ih =>
    by_cases h : key a = k
    · simp [h, hf]
    · simp [h, ih]

/-- An in-place update of the keyed row leaves rows with other keys alone. -/
theorem map_update_eq_self {α : Type} (p : α → Prop) [DecidablePred p] (f : α → α)
    (l : List α) (h : ∀ a ∈ l, ¬ p a) :
    (l.map (fun a => if p a then f a else a)) = l := by
  induction l with
  | nil => rfl
  | cons a t ih =>
    have ha : ¬ p a := h a (by simp)
    simp only [List.map_cons, if_neg ha, List.cons.injEq, true_and]
    exact ih (fun b hb => h b (by simp [hb]))

/-- `find?` by one key is unaffected by an in-place update of rows with a
different key (again for key-preserving updates). -/
theorem find?_map_update_ne {α : Type} (key : α → Nat) (i j : Nat) (hij : j ≠ i) (f : α → α)
    (hf : ∀ a, key (f a) = key a) (l : List α) :
    (l.map (fun a => if key a = i then f a else a)).find? (fun a => key a = j) =
      l.find? (fun a => key a = j) := by
  induction l with
  | nil => rfl
  | cons a t ih =>
    simp only [List.map_cons, List.find?_cons]
    by_cases h : key a = i
    · have e2 : decide (key (f a) = j) = false := by
        simp only [decide_eq_false_iff_not, hf a, h]
        exact fun hc => hij hc.symm
      have e3 : decide (key a = j) = false := by
        simp only [decide_eq_false_iff_not, h]
        exact fun hc => hij hc.symm
      rw [if_pos h]
      simp only [e2, e3]
      exact ih
    · rw [if_neg h]
      by_cases hj : key a = j
      · have e4 : decide (key a = j) = true := by
          simp only [decide_eq_true_eq]
          exact hj
        simp only [e4]
      · have e5 : decide (key a = j) = false := by
          simp only [decide_eq_false_iff_not]
          exact hj
        simp only [e5]
        exact ih

theorem getSession_updSession_self (db : DB) (sid : Nat)
    (f : NegotiationSession → NegotiationSession) (hf : ∀ t, (f t).id = t.id)
    (s : NegotiationSession) (h : db.getSession sid = some s) :
    (db.updSession sid f).getSession sid = some (f s) := by
  unfold DB.getSession DB.updSession at *
  rw [find?_map_update (fun t => t.id) sid f hf, h]
  rfl

theorem getItem_setItemStatus_self (db : DB) (i : Nat) (st : ItemStatus)
    (it : Item) (h : db.getItem i = some it) :
    (db.setItemStatus i st).getItem i = some { it with status := st } := by
  unfold DB.getItem DB.setItemStatus at *
  rw [find?_map_update (fun a => a.id) i (fun a => { a with status := st })
    (fun a => rfl) db.items, h]
  rfl

theorem getItem_setItemStatus_ne (db : DB) (i : Nat) (st : ItemStatus) (j : Nat) (hij : j ≠ i) :
    (db.setItemStatus i st).getItem j = db.getItem j := by
  show (db.items.map (fun a => if a.id = i then { a with status := st } else a)).find?
      (fun a => a.id = j) = db.items.find? (fun a => a.id = j)
  exact find?_map_update_ne (fun a => a.id) i j hij
    (fun a => { a with status := st }) (fun a => rfl) db.items

-- ==================== sorting lemmas (find_matches) ====================

theorem mem_insertByScore (p q : Item × ℚ) (l : List (Item × ℚ)) :
    q ∈ insertByScore p l ↔ q = p ∨ q ∈ l := by
  induction l with
  | nil => simp [insertByScore]
  | cons x xs ih =>
    by_cases h : x.2 < p.2
    · simp [insertByScore, h]
    · simp [insertByScore, h, ih]
      tauto

theorem mem_sortByScoreDesc (q : Item × ℚ) (l : List (Item × ℚ)) :
    q ∈ sortByScoreDesc l ↔ q ∈ l := by
  induction l with
  | nil => simp [sortByScoreDesc]
  | cons x xs ih => simp [sortByScoreDesc, mem_insertByScore, ih]

/-- The pair-exclusion guarantee of `find_matches`, shared by C3 and C10:
once a `FailedMatch` row for the pair exists, the found item of the pair is
absent from every candidate list for that lost item. -/
theorem find_matches_excludes (db : DB) (sim : SimFun) (lost : Item) (limit : Nat)
    (fm : FailedMatch) (hfm : fm ∈ db.failedMatches)
    (hl : fm.lost_item_id = some lost.id) (fid : Nat) (hf : fm.found_item_id = some fid) :
    ∀ p ∈ find_matches db sim lost limit, p.1.id ≠ fid := by
  intro p hp
  simp only [find_matches] at hp
  have hmem : (some fid : Option Nat) ∈
      (db.failedMatches.filter (fun f => f.lost_item_id = some lost.id)).map
        (fun f => f.found_item_id) := by
    rw [← hf]
    exact List.mem_map_of_mem _ (List.mem_filter.mpr ⟨hfm, by simp [hl]⟩)
  have hne : (db.failedMatches.filter (fun f => f.lost_item_id = some lost.id)).map
      (fun f => f.found_item_id) ≠ [] := List.ne_nil_of_mem hmem
  rw [if_neg hne] at hp
  have hp' := List.mem_of_mem_take hp
  rw [mem_sortByScoreDesc] at hp'
  obtain ⟨it, hit, heq⟩ := List.mem_filterMap.mp hp'
  have hpit : p.1 = it := by
    by_cases hc : MIN_MATCH_SCORE ≤ calculate_match_score sim lost it
    · simp only [if_pos hc, Option.some.injEq] at heq
      rw [← heq]
    · simp [if_neg hc] at heq
  have hnot := (List.mem_filter.mp hit).2
  simp only [decide_eq_true_eq] at hnot
  intro hcontra
  apply hnot
  rw [← hpit, hcontra]
  exact hmem

-- ==================== claim C3 ====================

/-- C3: whenever a `FailedMatch` record exists for an exact
(lost-item id, found-item id) pair, `find_matches` on that lost item never
includes that found item among its candidates, for any similarity oracle
and any limit; the exclusion is keyed on the pair and holds as long as the
record exists. -/
theorem claim_C3 (db : DB) (sim : SimFun) (lost : Item) (limit : Nat)
    (fm : FailedMatch) (hfm : fm ∈ db.failedMatches)
    (hl : fm.lost_item_id = some lost.id) (fid : Nat) (hf : fm.found_item_id = some fid) :
    ∀ p ∈ find_matches db sim lost limit, p.1.id ≠ fid :=
  find_matches_excludes db sim lost limit fm hfm hl fid hf

def w3Lost : Item :=
  { id := 1, title := "black Sony headphones", description := "lost in cafeteria",
    ai_description := none, itemType := .LOST, status := .OPEN,
    location := some "cafeteria", owner_id := 10 }

def w3Found : Item :=
  { id := 2, title := "black Sony headphones", description := "found in cafeteria",
    ai_description := none, itemType := .FOUND, status := .OPEN,
    location := some "cafeteria", owner_id := 20 }

def w3FM : FailedMatch :=
  { lost_item_id := some 1, found_item_id := some 2, session_id := none, reason := none }

def w3DB : DB :=
  { items := [w3Lost, w3Found], sessions := [], failedMatches := [w3FM],
    schedules := [], images := [] }

/-- The constant similarity oracle 1: the excluded found item would score a
perfect 1.0, well above the threshold, were it not excluded. -/
def simOne : SimFun := fun _ _ => 1

theorem claim_C3_witness :
    w3FM ∈ w3DB.failedMatches ∧ w3FM.lost_item_id = some w3Lost.id ∧
    w3FM.found_item_id = some 2 ∧
    ∀ p ∈ find_matches w3DB simOne w3Lost 10, p.1.id ≠ 2 :=
  ⟨by decide, rfl, rfl, claim_C3 w3DB simOne w3Lost 10 w3FM (by decide) rfl 2 rfl⟩

-- ==================== claim C10 ====================

/-- The session update `force_match` performs. -/
def forcedSession (s : NegotiationSession) : NegotiationSession :=
  { s with status := .PENDING_CONFIRM, seeker_confirmed := some true,
           chat_log := s.chat_log ++ [forceMatchAudit] }

/-- C10: on a FAILED or REJECTED session, `force_match` invoked by the owner
of the lost item mutates only that session — its status becomes
PENDING_CONFIRM, its seeker flag becomes true and the audit entry is
appended to the chat log — while the items, FailedMatch rows, schedules,
images and every other session are untouched; consequently the matching
engine still excludes every pair with a FailedMatch row afterwards. -/
theorem claim_C10 (db : DB) (uid sid : Nat) (s : NegotiationSession)
    (hs : db.getSession sid = some s)
    (hown : db.refOwnedBy s.lost_item_id uid = true)
    (hst : s.status = .FAILED ∨ s.status = .REJECTED) :
    ∃ db', force_match db uid sid = .ok db' ∧
      db'.items = db.items ∧ db'.failedMatches = db.failedMatches ∧
      db'.schedules = db.schedules ∧ db'.images = db.images ∧
      db'.getSession sid = some (forcedSession s) ∧
      (∀ t ∈ db.sessions, t.id ≠ sid → t ∈ db'.sessions) ∧
      (∀ sim limit (lost : Item) (fm : FailedMatch), fm ∈ db'.failedMatches →
        fm.lost_item_id = some lost.id → ∀ fid, fm.found_item_id = some fid →
        ∀ p ∈ find_matches db' sim lost limit, p.1.id ≠ fid) := by
  have hrun : force_match db uid sid = .ok (db.updSession sid forcedSession) := by
    unfold force_match forcedSession
    rw [hs]
    rcases hst with h | h <;> simp [hown, h]
  refine ⟨_, hrun, rfl, rfl, rfl, rfl, ?_, ?_, ?_⟩
  · exact getSession_updSession_self db sid forcedSession (fun t => rfl) s hs
  · intro t ht htid
    have hmem : (if t.id = sid then forcedSession t else t) ∈
        (db.updSession sid forcedSession).sessions := List.mem_map_of_mem _ ht
    rwa [if_neg htid] at hmem
  · intro sim limit lost fm hfm hl fid hf
    exact find_matches_excludes _ sim lost limit fm hfm hl fid hf

def w10Sess : NegotiationSession :=
  { id := 5, lost_item_id := some 1, found_item_id := some 2, status := .FAILED,
    match_score := 0, chat_log := [], seeker_confirmed := none, finder_confirmed := none }

def w10DB : DB :=
  { items := [w3Lost, w3Found], sessions := [w10Sess], failedMatches := [w3FM],
    schedules := [], images := [] }

theorem claim_C10_witness :
    w10DB.getSession 5 = some w10Sess ∧
    w10DB.refOwnedBy w10Sess.lost_item_id 10 = true ∧
    w10Sess.status = .FAILED ∧
    ∃ db', force_match w10DB 10 5 = .ok db' ∧
      db'.items = w10DB.items ∧ db'.failedMatches = w10DB.failedMatches := by
  refine ⟨rfl, rfl, rfl, ?_⟩
  obtain ⟨db', hrun, hitems, hfm, _⟩ :=
    claim_C10 w10DB 10 5 w10Sess rfl rfl (Or.inl rfl)
  exact ⟨db', hrun, hitems, hfm⟩

-- ==================== claim C4 ====================

/-- The list of present comparisons as the specification enumerates them:
title always with weight 0.3; free-text description, machine description
and location each contributing (similarity, weight) only when both sides
are non-empty, with weights 0.3, 0.3 and 0.1. -/
def specPresent (sim : SimFun) (lost found : Item) : List (ℚ × ℚ) :=
  [(sim lost.title found.title, 3/10)]
  ++ (if lost.description ≠ "" ∧ found.description ≠ "" then
        [(sim lost.description found.description, 3/10)] else [])
  ++ (if lost.ai_description.getD "" ≠ "" ∧ found.ai_description.getD "" ≠ "" then
        [(sim (lost.ai_description.getD "") (found.ai_description.getD ""), 3/10)] else [])
  ++ (if lost.location.getD "" ≠ "" ∧ found.location.getD "" ≠ "" then
        [(sim (lost.location.getD "") (found.location.getD ""), 1/10)] else [])

/-- The specification's description of the score: the weighted average over
the present comparisons, rounded to 4 decimal places, and 0.0 when no
comparison is present. -/
def specScore (sim : SimFun) (lost found : Item) : ℚ :=
  let ps := specPresent sim lost found
  if ps = [] then 0
  else pyRound4 (((ps.map (fun p => p.1 * p.2)).sum) / ((ps.map (fun p => p.2)).sum))

theorem sum_weights_bounds (l : List (ℚ × ℚ))
    (h : ∀ p ∈ l, 0 ≤ p.1 ∧ p.1 ≤ 1 ∧ 0 ≤ p.2) :
    0 ≤ (l.map (fun p => p.1 * p.2)).sum ∧
      (l.map (fun p => p.1 * p.2)).sum ≤ (l.map (fun p => p.2)).sum := by
  induction l with
  | nil => simp
  | cons p t ih =>
    obtain ⟨h0, h1, h2⟩ := h p (by simp)
    obtain ⟨ih0, ih1⟩ := ih (fun q hq => h q (by simp [hq]))
    constructor
    · simp only [List.map_cons, List.sum_cons]
      have : 0 ≤ p.1 * p.2 := mul_nonneg h0 h2
      linarith
    · simp only [List.map_cons, List.sum_cons]
      have : p.1 * p.2 ≤ p.2 := by nlinarith
      linarith

theorem roundHalfEven_bounds (q : ℚ) :
    ⌊q⌋ ≤ roundHalfEven q ∧ roundHalfEven q ≤ ⌈q⌉ := by
  unfold roundHalfEven
  have hfl : (⌊q⌋ : ℚ) ≤ q := Int.floor_le q
  by_cases h1 : q - ⌊q⌋ < 1/2
  · simp only [if_pos h1]
    exact ⟨le_refl _, Int.floor_le_ceil q⟩
  · have hlt : (⌊q⌋ : ℚ) < q := by
      push_neg at h1
      linarith
    have hceil : ⌊q⌋ + 1 ≤ ⌈q⌉ := by
      have : ⌊q⌋ < ⌈q⌉ := Int.lt_ceil.mpr hlt
      omega
    by_cases h2 : 1/2 < q - ⌊q⌋
    · simp only [if_neg h1, if_pos h2]
      exact ⟨by omega, hceil⟩
    · by_cases h3 : ⌊q⌋ % 2 = 0
      · simp only [if_neg h1, if_neg h2, if_pos h3]
        exact ⟨le_refl _, Int.floor_le_ceil q⟩
      · simp only [if_neg h1, if_neg h2, if_neg h3]
        exact ⟨by omega, hceil⟩

theorem pyRound4_bounds (q : ℚ) (h0 : 0 ≤ q) (h1 : q ≤ 1) :
    0 ≤ pyRound4 q ∧ pyRound4 q ≤ 1 := by
  obtain ⟨hl, hu⟩ := roundHalfEven_bounds (q * 10000)
  have hfl : (0 : ℤ) ≤ ⌊q * 10000⌋ := by
    apply Int.le_floor.mpr
    push_cast
    positivity
  have hcl : ⌈q * 10000⌉ ≤ 10000 := by
    apply Int.ceil_le.mpr
    push_cast
    nlinarith
  have hr0 : (0 : ℤ) ≤ roundHalfEven (q * 10000) := le_trans hfl hl
  have hr1 : roundHalfEven (q * 10000) ≤ 10000 := le_trans hu hcl
  unfold pyRound4
  constructor
  · apply div_nonneg _ (by norm_num)
    exact_mod_cast hr0
  · rw [div_le_one (by norm_num)]
    exact_mod_cast hr1

theorem specPresent_mem_bounds (sim : SimFun)
    (hsim : ∀ a b, 0 ≤ sim a b ∧ sim a b ≤ 1) (lost found : Item) :
    ∀ p ∈ specPresent sim lost found, 0 ≤ p.1 ∧ p.1 ≤ 1 ∧ 0 ≤ p.2 := by
  intro p hp
  unfold specPresent at hp
  simp only [List.mem_append, List.mem_singleton] at hp
  rcases hp with ((h | h) | h) | h
  · rcases h with rfl
    exact ⟨(hsim _ _).1, (hsim _ _).2, by norm_num⟩
  all_goals {
    rcases Classical.em _ with hc | hc
    rotate_left
    · rw [if_neg hc] at h
      simp at h
    · rw [if_pos hc] at h
      simp only [List.mem_singleton] at h
      rcases h with rfl
      exact ⟨(hsim _ _).1, (hsim _ _).2, by norm_num⟩ }

theorem specPresent_weight_pos (sim : SimFun) (lost found : Item) :
    0 < ((specPresent sim lost found).map (fun p => p.2)).sum := by
  unfold specPresent
  split_ifs <;> simp <;> norm_num

theorem specPresent_ne_nil (sim : SimFun) (lost found : Item) :
    specPresent sim lost found ≠ [] := by
  unfold specPresent
  simp

/-- C4: `calculate_match_score` equals the weighted average over the present
comparisons described by the spec, rounded to 4 decimal places; for any
similarity oracle mapping into [0,1] the result lies in [0,1]; and in the
(impossible, since the title comparison is always present) case of no
comparable field pair it would be 0.0. -/
theorem claim_C4 (sim : SimFun) (hsim : ∀ a b, 0 ≤ sim a b ∧ sim a b ≤ 1)
    (lost found : Item) :
    calculate_match_score sim lost found = specScore sim lost found ∧
    0 ≤ calculate_match_score sim lost found ∧
    calculate_match_score sim lost found ≤ 1 ∧
    (specPresent sim lost found = [] → calculate_match_score sim lost found = 0) := by
  have hlist : matchPairs sim lost found = specPresent sim lost found := by
    unfold matchPairs specPresent
    by_cases hd : lost.description ≠ "" ∧ found.description ≠ "" <;>
      by_cases ha : lost.ai_description.getD "" ≠ "" ∧ found.ai_description.getD "" ≠ "" <;>
        by_cases hl : lost.location.getD "" ≠ "" ∧ found.location.getD "" ≠ "" <;>
          simp [hd, ha, hl]
  have heq : calculate_match_score sim lost found = specScore sim lost found := by
    unfold calculate_match_score specScore
    rw [hlist]
  refine ⟨heq, ?_, ?_, ?_⟩
  · rw [heq]
    unfold specScore
    rw [if_neg (specPresent_ne_nil sim lost found)]
    have hb := sum_weights_bounds _ (specPresent_mem_bounds sim hsim lost found)
    have hw := specPresent_weight_pos sim lost found
    exact (pyRound4_bounds _ (div_nonneg hb.1 (le_of_lt hw))
      ((div_le_one hw).mpr hb.2)).1
  · rw [heq]
    unfold specScore
    rw [if_neg (specPresent_ne_nil sim lost found)]
    have hb := sum_weights_bounds _ (specPresent_mem_bounds sim hsim lost found)
    have hw := specPresent_weight_pos sim lost found
    exact (pyRound4_bounds _ (div_nonneg hb.1 (le_of_lt hw))
      ((div_le_one hw).mpr hb.2)).2
  · intro hnil
    exact absurd hnil (specPresent_ne_nil sim lost found)

/-- The constant similarity oracle 1/2, used to instantiate C4 concretely. -/
def simHalf : SimFun := fun _ _ => 1/2

theorem claim_C4_witness :
    calculate_match_score simHalf w3Lost w3Found = specScore simHalf w3Lost w3Found ∧
    0 ≤ calculate_match_score simHalf w3Lost w3Found ∧
    calculate_match_score simHalf w3Lost w3Found ≤ 1 ∧
    (specPresent simHalf w3Lost w3Found = [] →
      calculate_match_score simHalf w3Lost w3Found = 0) :=
  claim_C4 simHalf (fun a b => by unfold simHalf; norm_num) w3Lost w3Found

-- ==================== negotiation-loop lemmas ====================

theorem runNegoAux_log_extend (d : Decider) :
    ∀ fuel log used, ∃ rest, (runNegoAux d fuel log used).1 = log ++ rest := by
  intro fuel
  induction fuel with
  | zero =>
    intro log used
    exact ⟨[], (List.append_nil log).symm⟩
  | succ n ih =>
    intro log used
    simp only [runNegoAux]
    by_cases h1 : (produce d log).action_type = some "AGREE"
    · rw [if_pos h1]
      exact ⟨[produce d log], rfl⟩
    · rw [if_neg h1]
      by_cases h2 : (produce d log).action_type = some "REJECT"
      · rw [if_pos h2]
        exact ⟨[produce d log], rfl⟩
      · rw [if_neg h2]
        obtain ⟨rest, hr⟩ := ih (log ++ [produce d log]) (used + 1)
        exact ⟨[produce d log] ++ rest, by rw [hr, List.append_assoc]⟩

/-- The speaker chosen by the alternation rule never repeats the sender of
the most recent turn. -/
theorem produce_sender_ne_last (d : Decider) (log : List Msg) (m : Msg)
    (h : log.getLast? = some m) : (produce d log).sender ≠ m.sender := by
  simp only [produce, execute, pickRole, h]
  by_cases hs : m.sender ≠ "Seeker"
  · rw [if_pos hs]
    exact fun hc => hs (by rw [← hc]; rfl)
  · rw [if_neg hs]
    push_neg at hs
    rw [hs]
    intro hc
    exact absurd hc (by unfold Role.str; decide)

theorem runNegoAux_chain' (d : Decider) :
    ∀ fuel log used, log.Chain' (fun a b => a.sender ≠ b.sender) →
      (runNegoAux d fuel log used).1.Chain' (fun a b => a.sender ≠ b.sender) := by
  intro fuel
  induction fuel with
  | zero =>
    intro log used h
    exact h
  | succ n ih =>
    intro log used h
    have hstep : (log ++ [produce d log]).Chain' (fun a b => a.sender ≠ b.sender) := by
      rw [List.chain'_append]
      refine ⟨h, List.chain'_singleton _, ?_⟩
      intro x hx y hy
      simp only [List.head?_cons, Option.mem_def, Option.some.injEq] at hy
      rw [← hy]
      exact (produce_sender_ne_last d log x hx).symm
    simp only [runNegoAux]
    by_cases h1 : (produce d log).action_type = some "AGREE"
    · rw [if_pos h1]
      exact hstep
    · rw [if_neg h1]
      by_cases h2 : (produce d log).action_type = some "REJECT"
      · rw [if_pos h2]
        exact hstep
      · rw [if_neg h2]
        exact ih (log ++ [produce d log]) (used + 1) hstep

theorem runNegoAux_head_of_nil (d : Decider) (fuel used : Nat) (h : 0 < fuel) :
    ((runNegoAux d fuel [] used).1).head? = some (produce d []) := by
  cases fuel with
  | zero => omega
  | succ n =>
    simp only [runNegoAux]
    by_cases h1 : (produce d []).action_type = some "AGREE"
    · rw [if_pos h1]
      rfl
    · rw [if_neg h1]
      by_cases h2 : (produce d []).action_type = some "REJECT"
      · rw [if_pos h2]
        rfl
      · rw [if_neg h2]
        obtain ⟨rest, hr⟩ := runNegoAux_log_extend d n ([] ++ [produce d []]) (used + 1)
        rw [hr]
        rfl

-- ==================== claim C7 ====================

/-- C7: in every transcript produced by the negotiation turn loop starting
from an empty transcript, the first turn is sent by the Seeker agent, and
adjacent turns always have distinct senders — the same role never speaks
twice consecutively — whatever the decision backend does. -/
theorem claim_C7 (d : Decider) :
    ((runNegoAux d MAX_NEGOTIATION_ROUNDS [] 0).1.head?).map Msg.sender = some "Seeker" ∧
    (runNegoAux d MAX_NEGOTIATION_ROUNDS [] 0).1.Chain' (fun a b => a.sender ≠ b.sender) := by
  constructor
  · rw [runNegoAux_head_of_nil d MAX_NEGOTIATION_ROUNDS 0
      (by unfold MAX_NEGOTIATION_ROUNDS; omega)]
    rfl
  · exact runNegoAux_chain' d MAX_NEGOTIATION_ROUNDS [] 0 List.chain'_nil

-- ==================== claim C6 ====================

/-- The transcript after `n` turns of the loop, starting from `log`. -/
def negoTrace (d : Decider) (log : List Msg) : Nat → List Msg
  | 0 => log
  | n + 1 => negoTrace d log n ++ [produce d (negoTrace d log n)]

/-- The message produced at turn `n` (0-based) of the loop. -/
def negoMsg (d : Decider) (log : List Msg) (n : Nat) : Msg :=
  produce d (negoTrace d log n)

/-- A message whose action tag terminates the loop ("AGREE" or "REJECT");
every other action lets the dialogue continue. -/
def isTerminalMsg (m : Msg) : Bool :=
  decide (m.action_type = some "AGREE" ∨ m.action_type = some "REJECT")

/-- The outcome a terminating turn carries. -/
def terminalOutcome (m : Msg) : NegoOutcome :=
  if m.action_type = some "AGREE" then .success else .failed

theorem negoTrace_shift (d : Decider) (log : List Msg) :
    ∀ n, negoTrace d log (n + 1) = negoTrace d (log ++ [produce d log]) n := by
  intro n
  induction n with
  | zero => rfl
  | succ k ih =>
    show negoTrace d log (k + 1) ++ [produce d (negoTrace d log (k + 1))] =
      negoTrace d (log ++ [produce d log]) k ++
        [produce d (negoTrace d (log ++ [produce d log]) k)]
    rw [ih]

theorem negoMsg_shift (d : Decider) (log : List Msg) (n : Nat) :
    negoMsg d log (n + 1) = negoMsg d (log ++ [produce d log]) n := by
  unfold negoMsg
  rw [negoTrace_shift]

theorem runNegoAux_rounds_le (d : Decider) :
    ∀ fuel log used, (runNegoAux d fuel log used).2.2 ≤ used + fuel := by
  intro fuel
  induction fuel with
  | zero =>
    intro log used
    simp [runNegoAux]
  | succ n ih =>
    intro log used
    simp only [runNegoAux]
    by_cases h1 : (produce d log).action_type = some "AGREE"
    · rw [if_pos h1]
      show used + 1 ≤ used + (n + 1)
      omega
    · rw [if_neg h1]
      by_cases h2 : (produce d log).action_type = some "REJECT"
      · rw [if_pos h2]
        show used + 1 ≤ used + (n + 1)
        omega
      · rw [if_neg h2]
        have := ih (log ++ [produce d log]) (used + 1)
        omega

/-- Full characterization of the turn loop: if none of the first `fuel`
produced messages is terminal the loop exhausts its budget; if the first
terminal message is the `k`-th one, the loop stops right there with that
message's outcome. -/
theorem runNegoAux_char (d : Decider) :
    ∀ fuel log used,
      ((∀ k, k < fuel → isTerminalMsg (negoMsg d log k) = false) →
        runNegoAux d fuel log used = (negoTrace d log fuel, .maxRounds, used + fuel)) ∧
      (∀ k, k < fuel → (∀ j, j < k → isTerminalMsg (negoMsg d log j) = false) →
        isTerminalMsg (negoMsg d log k) = true →
        runNegoAux d fuel log used =
          (negoTrace d log (k + 1), terminalOutcome (negoMsg d log k), used + k + 1)) := by
  intro fuel
  induction fuel with
  | zero =>
    intro log used
    refine ⟨fun _ => ?_, fun k hk => absurd hk (Nat.not_lt_zero k)⟩
    show runNegoAux d 0 log used = (log, .maxRounds, used + 0)
    simp [runNegoAux]
  | succ n ih =>
    intro log used
    have hm0 : negoMsg d log 0 = produce d log := rfl
    by_cases h0 : isTerminalMsg (produce d log) = true
    · have h0' : (produce d log).action_type = some "AGREE" ∨
          (produce d log).action_type = some "REJECT" := by
        simpa [isTerminalMsg] using h0
      have hstop : runNegoAux d (n + 1) log used =
          (log ++ [produce d log], terminalOutcome (produce d log), used + 1) := by
        rcases h0' with hA | hR
        · simp only [runNegoAux, terminalOutcome]
          rw [if_pos hA, if_pos hA]
        · have hA : ¬ (produce d log).action_type = some "AGREE" := by
            rw [hR]
            simp
          simp only [runNegoAux, terminalOutcome]
          rw [if_neg hA, if_pos hR, if_neg hA]
      constructor
      · intro hall
        have := hall 0 (by omega)
        rw [hm0] at this
        rw [h0] at this
        exact absurd this (by simp)
      · intro k hk hprev hterm
        have hk0 : k = 0 := by
          by_contra hne
          have hz := hprev 0 (by omega)
          rw [hm0, h0] at hz
          exact absurd hz (by simp)
        subst hk0
        rw [hstop]
        rfl
    · have hA : ¬ (produce d log).action_type = some "AGREE" := by
        intro hc
        exact h0 (by simp [isTerminalMsg, hc])
      have hR : ¬ (produce d log).action_type = some "REJECT" := by
        intro hc
        exact h0 (by simp [isTerminalMsg, hc])
      have hadv : runNegoAux d (n + 1) log used =
          runNegoAux d n (log ++ [produce d log]) (used + 1) := by
        simp only [runNegoAux]
        rw [if_neg hA, if_neg hR]
      obtain ⟨ihmax, ihterm⟩ := ih (log ++ [produce d log]) (used + 1)
      constructor
      · intro hall
        rw [hadv, ihmax (fun k hk => by
          have := hall (k + 1) (by omega)
          rwa [negoMsg_shift] at this)]
        rw [← negoTrace_shift d log n]
        have harith : used + 1 + n = used + (n + 1) := by omega
        rw [harith]
      · intro k hk hprev hterm
        cases k with
        | zero =>
          rw [hm0] at hterm
          exact absurd hterm h0
        | succ k' =>
          have hterm' : isTerminalMsg (negoMsg d (log ++ [produce d log]) k') = true := by
            rw [← negoMsg_shift]
            exact hterm
          have hprev' : ∀ j, j < k' →
              isTerminalMsg (negoMsg d (log ++ [produce d log]) j) = false := by
            intro j hj
            rw [← negoMsg_shift]
            exact hprev (j + 1) (by omega)
          rw [hadv, ihterm k' (by omega) hprev' hterm']
          rw [← negoTrace_shift d log (k' + 1), ← negoMsg_shift d log k']
          have harith : used + 1 + k' + 1 = used + (k' + 1) + 1 := by omega
          rw [harith]

/-- C6: on an ACTIVE session `run_full_negotiation` always returns, after at
most `MAX_NEGOTIATION_ROUNDS` (20) turns, committing the final transcript
and a status of PENDING_CONFIRM exactly on a SUCCESS (AGREE) outcome and
FAILED otherwise; if none of the first 20 produced messages carries AGREE
or REJECT — every other action is informational and the loop continues —
the outcome is MAX_ROUNDS with exactly 20 turns; and if the first
terminal message is the `k`-th, the loop stops at round `k+1` with
SUCCESS exactly for AGREE and FAILED exactly for REJECT. -/
theorem claim_C6 (db : DB) (d : Decider) (sid : Nat) (s : NegotiationSession)
    (hs : db.getSession sid = some s) (hact : s.status = .ACTIVE) :
    ∃ db' out rounds, run_full_negotiation db d sid = .ok (db', out, rounds) ∧
      rounds ≤ MAX_NEGOTIATION_ROUNDS ∧
      db'.getSession sid = some { s with
        chat_log := (runNegoAux d MAX_NEGOTIATION_ROUNDS s.chat_log 0).1,
        status := out.finalStatus } ∧
      out.finalStatus =
        (if out = .success then NegotiationStatus.PENDING_CONFIRM else NegotiationStatus.FAILED) ∧
      ((∀ k, k < MAX_NEGOTIATION_ROUNDS → isTerminalMsg (negoMsg d s.chat_log k) = false) →
        out = .maxRounds ∧ rounds = MAX_NEGOTIATION_ROUNDS) ∧
      (∀ k, k < MAX_NEGOTIATION_ROUNDS →
        (∀ j, j < k → isTerminalMsg (negoMsg d s.chat_log j) = false) →
        isTerminalMsg (negoMsg d s.chat_log k) = true →
        rounds = k + 1 ∧
        (out = .success ↔ (negoMsg d s.chat_log k).action_type = some "AGREE") ∧
        (out = .failed ↔ (negoMsg d s.chat_log k).action_type = some "REJECT")) := by
  have hrun : run_full_negotiation db d sid = .ok
      (db.updSession sid (fun t => { t with
        chat_log := (runNegoAux d MAX_NEGOTIATION_ROUNDS s.chat_log 0).1,
        status := (runNegoAux d MAX_NEGOTIATION_ROUNDS s.chat_log 0).2.1.finalStatus }),
       (runNegoAux d MAX_NEGOTIATION_ROUNDS s.chat_log 0).2.1,
       (runNegoAux d MAX_NEGOTIATION_ROUNDS s.chat_log 0).2.2) := by
    simp only [run_full_negotiation, hs, hact]
    rw [if_neg (by simp)]
  refine ⟨_, _, _, hrun, ?_, ?_, ?_, ?_, ?_⟩
  · have := runNegoAux_rounds_le d MAX_NEGOTIATION_ROUNDS s.chat_log 0
    omega
  · exact getSession_updSession_self db sid
      (fun t => { t with
        chat_log := (runNegoAux d MAX_NEGOTIATION_ROUNDS s.chat_log 0).1,
        status := (runNegoAux d MAX_NEGOTIATION_ROUNDS s.chat_log 0).2.1.finalStatus })
      (fun t => rfl) s hs
  · cases hout : (runNegoAux d MAX_NEGOTIATION_ROUNDS s.chat_log 0).2.1 <;>
      simp [NegoOutcome.finalStatus]
  · intro hall
    have hchar := (runNegoAux_char d MAX_NEGOTIATION_ROUNDS s.chat_log 0).1 hall
    rw [hchar]
    exact ⟨rfl, Nat.zero_add _⟩
  · intro k hk hprev hterm
    have hchar := (runNegoAux_char d MAX_NEGOTIATION_ROUNDS s.chat_log 0).2 k hk hprev hterm
    rw [hchar]
    have hAR : (negoMsg d s.chat_log k).action_type = some "AGREE" ∨
        (negoMsg d s.chat_log k).action_type = some "REJECT" := by
      simpa [isTerminalMsg] using hterm
    refine ⟨?_, ?_, ?_⟩
    · show 0 + k + 1 = k + 1
      omega
    · show terminalOutcome (negoMsg d s.chat_log k) = .success ↔
        (negoMsg d s.chat_log k).action_type = some "AGREE"
      unfold terminalOutcome
      by_cases hA : (negoMsg d s.chat_log k).action_type = some "AGREE" <;> simp [hA]
    · show terminalOutcome (negoMsg d s.chat_log k) = .failed ↔
        (negoMsg d s.chat_log k).action_type = some "REJECT"
      unfold terminalOutcome
      by_cases hA : (negoMsg d s.chat_log k).action_type = some "AGREE"
      · rw [if_pos hA, hA]
        simp
      · rw [if_neg hA]
        simp only [true_iff]
        rcases hAR with h | h
        · exact absurd h hA
        · exact h

/-- A decision backend that immediately agrees, used to instantiate C6. -/
def dAgree : Decider := fun _ _ => (some "AGREE", some "ok")

def w6Sess : NegotiationSession :=
  { id := 7, lost_item_id := some 1, found_item_id := some 2, status := .ACTIVE,
    match_score := 1/2, chat_log := [], seeker_confirmed := none, finder_confirmed := none }

def w6DB : DB :=
  { items := [w3Lost, w3Found], sessions := [w6Sess], failedMatches := [],
    schedules := [], images := [] }

theorem claim_C6_witness :
    w6DB.getSession 7 = some w6Sess ∧ w6Sess.status = .ACTIVE ∧
    ∃ db' out rounds, run_full_negotiation w6DB dAgree 7 = .ok (db', out, rounds) ∧
      rounds ≤ MAX_NEGOTIATION_ROUNDS ∧ rounds = 1 ∧ out = .success := by
  refine ⟨rfl, rfl, ?_⟩
  obtain ⟨db', out, rounds, hrun, hle, _, _, _, hterm⟩ :=
    claim_C6 w6DB dAgree 7 w6Sess rfl rfl
  obtain ⟨hr1, hiff, _⟩ := hterm 0 (by decide)
    (fun j hj => absurd hj (Nat.not_lt_zero j)) (by decide)
  exact ⟨db', out, rounds, hrun, hle, hr1, hiff.mpr (by decide)⟩

-- ==================== claim C2 ====================

/-- Whether the caller owns the lost item of the session (the "seeker side"
authorization test of main.py). -/
def partyOfLost (db : DB) (sid uid : Nat) : Bool :=
  match db.getSession sid with
  | some s => db.refOwnedBy s.lost_item_id uid
  | none => false

/-- Whether the caller owns the found item of the session (the "finder side"
authorization test of main.py). -/
def partyOfFound (db : DB) (sid uid : Nat) : Bool :=
  match db.getSession sid with
  | some s => db.refOwnedBy s.found_item_id uid
  | none => false

/-- The status of the session, when it exists. -/
def sessionStatus? (db : DB) (sid : Nat) : Option NegotiationStatus :=
  (db.getSession sid).map (fun s => s.status)

def c2Lost : Item :=
  { id := 1, title := "wallet", description := "black wallet", ai_description := none,
    itemType := .LOST, status := .MATCHED, location := none, owner_id := 10 }

def c2Found : Item :=
  { id := 2, title := "wallet", description := "found wallet", ai_description := none,
    itemType := .FOUND, status := .MATCHED, location := none, owner_id := 20 }

def c2SessConfirmed : NegotiationSession :=
  { id := 5, lost_item_id := some 1, found_item_id := some 2, status := .CONFIRMED,
    match_score := 0, chat_log := [], seeker_confirmed := some true,
    finder_confirmed := some true }

def c2SessActive : NegotiationSession :=
  { id := 6, lost_item_id := some 1, found_item_id := some 2, status := .ACTIVE,
    match_score := 0, chat_log := [], seeker_confirmed := none, finder_confirmed := none }

def c2DB : DB :=
  { items := [c2Lost, c2Found], sessions := [c2SessConfirmed, c2SessActive],
    failedMatches := [], schedules := [], images := [] }

def c2AfterStart : DB :=
  { c2DB with sessions := [{ c2SessConfirmed with status := .WAITING_RETURN }, c2SessActive] }

def c2AfterConfirm : DB :=
  { c2DB with sessions := [c2SessConfirmed,
      { c2SessActive with seeker_confirmed := some true }] }

/-- C2 counterexample: the claim fails on the code in two places.
`start_return` performs no ownership check: user 99, who owns neither item
of session 5, successfully moves the CONFIRMED session to WAITING_RETURN
instead of receiving a rejected-operation error.  And `confirm_item`
performs no session-state check: the seeker's confirmation on session 6 —
still ACTIVE, not a state the human-confirm transition names — succeeds
and records the confirmation flag instead of being rejected. -/
theorem claim_C2_counterexample :
    c2DB.items.all (fun it => it.owner_id ≠ 99) = true ∧
    sessionStatus? c2DB 5 = some .CONFIRMED ∧
    start_return c2DB 99 5 = .ok c2AfterStart ∧
    sessionStatus? c2AfterStart 5 = some .WAITING_RETURN ∧
    sessionStatus? c2DB 6 = some .ACTIVE ∧
    confirm_item c2DB 10 6 true = .ok c2AfterConfirm :=
  ⟨rfl, rfl, rfl, rfl, rfl, rfl⟩

/-- C2 amended: the schedule operations (propose / approve / reject) reject
both a wrong caller role and a wrong session state; `confirm_return`
rejects a wrong session state and a caller who is neither party;
human confirm (`confirm_item`) rejects only a caller who is neither party
(it accepts any session state); `start_return` rejects only a wrong
session state (it accepts any authenticated caller).  Every rejection is
surfaced as an error — modelled as `Except.error` carrying the HTTP
status code, raised before any mutation, so the database is unchanged. -/
theorem claim_C2_amended (db : DB) (uid sid : Nat) :
    (∀ t loc notes, (partyOfFound db sid uid = false ∨
        sessionStatus? db sid ≠ some .CONFIRMED) →
      ∃ e, create_schedule db uid sid t loc notes = .error e) ∧
    ((partyOfLost db sid uid = false ∨ sessionStatus? db sid ≠ some .SCHEDULE_PENDING) →
      ∃ e, approve_schedule db uid sid = .error e) ∧
    (∀ reason, (partyOfLost db sid uid = false ∨
        sessionStatus? db sid ≠ some .SCHEDULE_PENDING) →
      ∃ e, reject_schedule db uid sid reason = .error e) ∧
    (sessionStatus? db sid ≠ some .CONFIRMED →
      ∃ e, start_return db uid sid = .error e) ∧
    (∀ b, (sessionStatus? db sid ≠ some .WAITING_RETURN ∨
        (partyOfLost db sid uid = false ∧ partyOfFound db sid uid = false)) →
      ∃ e, confirm_return db uid sid b = .error e) ∧
    (∀ b, (partyOfLost db sid uid = false ∧ partyOfFound db sid uid = false) →
      ∃ e, confirm_item db uid sid b = .error e) := by
  rcases hset : db.getSession sid with _ | s
  · refine ⟨?_, ?_, ?_, ?_, ?_, ?_⟩
    · intro t loc notes _
      exact ⟨404, by simp [create_schedule, hset]⟩
    · intro _
      exact ⟨404, by simp [approve_schedule, hset]⟩
    · intro reason _
      exact ⟨404, by simp [reject_schedule, hset]⟩
    · intro _
      exact ⟨404, by simp [start_return, hset]⟩
    · intro b _
      exact ⟨404, by simp [confirm_return, hset]⟩
    · intro b _
      exact ⟨404, by simp [confirm_item, hset]⟩
  · have hpl : partyOfLost db sid uid = db.refOwnedBy s.lost_item_id uid := by
      unfold partyOfLost
      rw [hset]
    have hpf : partyOfFound db sid uid = db.refOwnedBy s.found_item_id uid := by
      unfold partyOfFound
      rw [hset]
    have hst : sessionStatus? db sid = some s.status := by
      unfold sessionStatus?
      rw [hset]
      rfl
    refine ⟨?_, ?_, ?_, ?_, ?_, ?_⟩
    · intro t loc notes hcond
      by_cases hrole : db.refOwnedBy s.found_item_id uid = true
      · have hstat : ¬ s.status = NegotiationStatus.CONFIRMED := by
          rcases hcond with h | h
          · rw [hpf] at h
            rw [h] at hrole
            exact absurd hrole (by simp)
          · rw [hst] at h
            simpa using h
        exact ⟨400, by simp [create_schedule, hset, hrole, hstat]⟩
      · exact ⟨403, by simp [create_schedule, hset, hrole]⟩
    · intro hcond
      by_cases hrole : db.refOwnedBy s.lost_item_id uid = true
      · have hstat : ¬ s.status = NegotiationStatus.SCHEDULE_PENDING := by
          rcases hcond with h | h
          · rw [hpl] at h
            rw [h] at hrole
            exact absurd hrole (by simp)
          · rw [hst] at h
            simpa using h
        exact ⟨400, by simp [approve_schedule, hset, hrole, hstat]⟩
      · exact ⟨403, by simp [approve_schedule, hset, hrole]⟩
    · intro reason hcond
      by_cases hrole : db.refOwnedBy s.lost_item_id uid = true
      · have hstat : ¬ s.status = NegotiationStatus.SCHEDULE_PENDING := by
          rcases hcond with h | h
          · rw [hpl] at h
            rw [h] at hrole
            exact absurd hrole (by simp)
          · rw [hst] at h
            simpa using h
        exact ⟨400, by simp [reject_schedule, hset, hrole, hstat]⟩
      · exact ⟨403, by simp [reject_schedule, hset, hrole]⟩
    · intro hcond
      have hstat : ¬ s.status = NegotiationStatus.CONFIRMED := by
        rw [hst] at hcond
        simpa using hcond
      exact ⟨400, by simp [start_return, hset, hstat]⟩
    · intro b hcond
      by_cases hw : s.status = NegotiationStatus.WAITING_RETURN
      · have hroles : partyOfLost db sid uid = false ∧ partyOfFound db sid uid = false := by
          rcases hcond with h | h
          · rw [hst] at h
            rw [hw] at h
            exact absurd rfl h
          · exact h
        rw [hpl] at hroles
        rw [hpf] at hroles
        exact ⟨403, by simp [confirm_return, hset, hw, hroles.1, hroles.2]⟩
      · exact ⟨400, by simp [confirm_return, hset, hw]⟩
    · intro b hcond
      obtain ⟨h1, h2⟩ := hcond
      rw [hpl] at h1
      rw [hpf] at h2
      exact ⟨403, by simp [confirm_item, hset, h1, h2]⟩

theorem claim_C2_amended_witness :
    (partyOfFound c2DB 5 10 = false ∧
      ∃ e, create_schedule c2DB 10 5 0 "loc" none = .error e) ∧
    (partyOfLost c2DB 5 20 = false ∧ ∃ e, approve_schedule c2DB 20 5 = .error e) ∧
    (sessionStatus? c2DB 5 ≠ some .SCHEDULE_PENDING ∧
      ∃ e, reject_schedule c2DB 10 5 "bad time" = .error e) ∧
    (sessionStatus? c2DB 6 ≠ some .CONFIRMED ∧ ∃ e, start_return c2DB 10 6 = .error e) ∧
    (sessionStatus? c2DB 5 ≠ some .WAITING_RETURN ∧
      ∃ e, confirm_return c2DB 10 5 true = .error e) ∧
    (partyOfLost c2DB 5 99 = false ∧ partyOfFound c2DB 5 99 = false ∧
      ∃ e, confirm_item c2DB 99 5 true = .error e) := by
  refine ⟨⟨rfl, ?_⟩, ⟨rfl, ?_⟩, ⟨by decide, ?_⟩, ⟨by decide, ?_⟩, ⟨by decide, ?_⟩,
    ⟨rfl, rfl, ?_⟩⟩
  · exact (claim_C2_amended c2DB 10 5).1 0 "loc" none (Or.inl rfl)
  · exact (claim_C2_amended c2DB 20 5).2.1 (Or.inl rfl)
  · exact (claim_C2_amended c2DB 10 5).2.2.1 "bad time" (Or.inr (by decide))
  · exact (claim_C2_amended c2DB 10 6).2.2.2.1 (by decide)
  · exact (claim_C2_amended c2DB 10 5).2.2.2.2.1 true (Or.inl (by decide))
  · exact (claim_C2_amended c2DB 99 5).2.2.2.2.2 true ⟨rfl, rfl⟩

-- ==================== claim C1 ====================

def c1Lost : Item :=
  { id := 1, title := "wallet", description := "black wallet", ai_description := none,
    itemType := .LOST, status := .MATCHED, location := none, owner_id := 10 }

def c1Found : Item :=
  { id := 2, title := "wallet", description := "found wallet", ai_description := none,
    itemType := .FOUND, status := .MATCHED, location := none, owner_id := 20 }

/-- A session that reached WAITING_RETURN through the normal flow: both
confirmation flags are `some true` because `confirm_item` set them during
the identity-confirmation phase (reaching CONFIRMED requires both), and
they were never reset afterwards. -/
def c1Sess : NegotiationSession :=
  { id := 5, lost_item_id := some 1, found_item_id := some 2, status := .WAITING_RETURN,
    match_score := 0, chat_log := [], seeker_confirmed := some true,
    finder_confirmed := some true }

/-- The approved schedule of the session; its own per-return confirmation
flags are still both `false`: neither party has confirmed the return. -/
def c1Sched : ReturnSchedule :=
  { session_id := 5, proposed_time := 3, proposed_location := "library gate",
    notes := none, status := "APPROVED", reject_reason := none,
    seeker_confirmed := false, finder_confirmed := false }

def c1DB : DB :=
  { items := [c1Lost, c1Found], sessions := [c1Sess],
    failedMatches := [{ lost_item_id := some 1, found_item_id := some 7,
                        session_id := none, reason := none }],
    schedules := [c1Sched],
    images := [{ item_id := 1, image_path := "p.jpg" }] }

/-- The session row after the single-party return confirmation. -/
def c1SessAfter : NegotiationSession :=
  { c1Sess with status := .RETURNED, lost_item_id := none, found_item_id := none }

/-- The schedule row after the single-party return confirmation. -/
def c1SchedAfter : ReturnSchedule :=
  { c1Sched with seeker_confirmed := true }

/-- The state `confirm_return` produces: session RETURNED with cleared item
references, both items deleted, their FailedMatch rows and images purged —
after only the seeker's confirmation. -/
def c1After : DB :=
  { items := [], sessions := [c1SessAfter], failedMatches := [],
    schedules := [c1SchedAfter], images := [] }

/-- C1: the claim fails on the code.  In a WAITING_RETURN session reached
through the normal flow both session confirmation flags are already
`some true` (left over from the identity-confirmation phase), so the gate
`session.seeker_confirmed and session.finder_confirmed` passes as soon as
ONE party confirms "returned": here the seeker alone confirms, the
schedule shows the finder never confirmed the return
(`finder_confirmed = false`), yet the session is finalized to RETURNED
and both items are permanently deleted, instead of waiting for the other
party as the claim (and the handler's own unreachable
"waiting for the other party" reply) requires. -/
theorem claim_C1_code_bug :
    c1Sess.status = .WAITING_RETURN ∧
    c1Sched.finder_confirmed = false ∧
    confirm_return c1DB 10 5 true = .ok c1After ∧
    sessionStatus? c1After 5 = some .RETURNED ∧
    c1After.items = [] :=
  ⟨rfl, rfl, rfl, rfl, rfl⟩

-- ==================== claim C8 ====================

theorem getItemRef_some (db : DB) (i : Nat) : db.getItemRef (some i) = db.getItem i := rfl

theorem id_of_getItem (db : DB) (i : Nat) (it : Item) (h : db.getItem i = some it) :
    it.id = i := by
  have := List.find?_some h
  simpa using this

/-- C8: the per-candidate step of the auto-matching loop.  When the
automatic negotiation ends in anything but SUCCESS (REJECT or round
exhaustion), a FailedMatch row for the exact pair is written and both
items revert to OPEN, with the session FAILED; on SUCCESS both items
remain locked in NEGOTIATING, the session is PENDING_CONFIRM, and no
FailedMatch row is added. -/
theorem claim_C8 (db : DB) (d : Decider) (sid L F : Nat) (q : ℚ)
    (li fi : Item) (hL : db.getItem L = some li) (hF : db.getItem F = some fi)
    (hLF : L ≠ F) (hfresh : ∀ u ∈ db.sessions, u.id ≠ sid) :
    ∃ db' succ, attemptCandidate db d sid L F q = (db', succ) ∧
      (succ = true →
        (db'.getItem L).map (fun it => it.status) = some .NEGOTIATING ∧
        (db'.getItem F).map (fun it => it.status) = some .NEGOTIATING ∧
        sessionStatus? db' sid = some .PENDING_CONFIRM ∧
        db'.failedMatches = db.failedMatches) ∧
      (succ = false →
        (∃ fm ∈ db'.failedMatches, fm.lost_item_id = some L ∧
          fm.found_item_id = some F ∧ fm.session_id = some sid) ∧
        (db'.getItem L).map (fun it => it.status) = some .OPEN ∧
        (db'.getItem F).map (fun it => it.status) = some .OPEN ∧
        sessionStatus? db' sid = some .FAILED) := by
  have hliid : li.id = L := id_of_getItem db L li hL
  have hfiid : fi.id = F := id_of_getItem db F fi hF
  set db1 := create_session db L F q sid with hdb1
  have hgs1 : db1.getSession sid =
      some ⟨sid, some L, some F, .ACTIVE, q, [], none, none⟩ := by
    show (((db.setItemStatus L .NEGOTIATING).setItemStatus F .NEGOTIATING).sessions ++
      [(⟨sid, some L, some F, .ACTIVE, q, [], none, none⟩ : NegotiationSession)]).find?
        (fun s => s.id = sid) = _
    rw [List.find?_append]
    have hnone : ((db.setItemStatus L .NEGOTIATING).setItemStatus F
        .NEGOTIATING).sessions.find? (fun s => s.id = sid) = none := by
      apply List.find?_eq_none.mpr
      intro x hx
      have hx' : x ∈ db.sessions := hx
      simpa using hfresh x hx'
    rw [hnone]
    simp
  have hitem1L : db1.getItem L = some { li with status := ItemStatus.NEGOTIATING } := by
    have h1 : db1.getItem L =
        ((db.setItemStatus L .NEGOTIATING).setItemStatus F .NEGOTIATING).getItem L := rfl
    rw [h1, getItem_setItemStatus_ne (db.setItemStatus L .NEGOTIATING) F .NEGOTIATING L hLF,
      getItem_setItemStatus_self db L .NEGOTIATING li hL]
  have hitem1F : db1.getItem F = some { fi with status := ItemStatus.NEGOTIATING } := by
    have h1 : db1.getItem F =
        ((db.setItemStatus L .NEGOTIATING).setItemStatus F .NEGOTIATING).getItem F := rfl
    have h2 : (db.setItemStatus L .NEGOTIATING).getItem F = some fi := by
      rw [getItem_setItemStatus_ne db L .NEGOTIATING F (Ne.symm hLF)]
      exact hF
    rw [h1, getItem_setItemStatus_self (db.setItemStatus L .NEGOTIATING) F .NEGOTIATING fi h2]
  rcases hR : runNegoAux d MAX_NEGOTIATION_ROUNDS ([] : List Msg) 0 with ⟨Rlog, Rout, Rn⟩
  have hrfn : run_full_negotiation db1 d sid = .ok
      (db1.updSession sid (fun t => { t with chat_log := Rlog, status := Rout.finalStatus }),
       Rout, Rn) := by
    simp only [run_full_negotiation, hgs1]
    rw [if_neg (by simp)]
    rw [hR]
  have hgs2 : (db1.updSession sid
        (fun t => { t with chat_log := Rlog, status := Rout.finalStatus })).getSession sid =
      some ⟨sid, some L, some F, Rout.finalStatus, q, Rlog, none, none⟩ :=
    getSession_updSession_self db1 sid
      (fun t => { t with chat_log := Rlog, status := Rout.finalStatus }) (fun t => rfl) _ hgs1
  have hit2L : (db1.updSession sid
        (fun t => { t with chat_log := Rlog, status := Rout.finalStatus })).getItem L =
      some { li with status := ItemStatus.NEGOTIATING } := hitem1L
  have hit2F : (db1.updSession sid
        (fun t => { t with chat_log := Rlog, status := Rout.finalStatus })).getItem F =
      some { fi with status := ItemStatus.NEGOTIATING } := hitem1F
  by_cases hout : Rout = NegoOutcome.success
  · refine ⟨db1.updSession sid
      (fun t => { t with chat_log := Rlog, status := Rout.finalStatus }), true, ?_, ?_, ?_⟩
    · simp only [attemptCandidate, hrfn]
      rw [if_pos hout]
    · intro _
      refine ⟨?_, ?_, ?_, rfl⟩
      · rw [show (db1.updSession sid
            (fun t => { t with chat_log := Rlog, status := Rout.finalStatus })).getItem L =
            db1.getItem L from rfl, hitem1L]
        rfl
      · rw [show (db1.updSession sid
            (fun t => { t with chat_log := Rlog, status := Rout.finalStatus })).getItem F =
            db1.getItem F from rfl, hitem1F]
        rfl
      · unfold sessionStatus?
        rw [hgs2]
        simp [hout, NegoOutcome.finalStatus]
    · intro hcontra
      exact absurd hcontra (by simp)
  · have hfail : Rout.finalStatus = NegotiationStatus.FAILED := by
      cases Rout
      · exact absurd rfl hout
      · rfl
      · rfl
    set db2 := db1.updSession sid
      (fun t => { t with chat_log := Rlog, status := Rout.finalStatus }) with hdb2
    set fmNew : FailedMatch :=
      { lost_item_id := some L, found_item_id := some F, session_id := some sid,
        reason := some Rout.str } with hfmNew
    set db3 := ({ db2 with failedMatches := db2.failedMatches ++ [fmNew] } : DB) with hdb3
    have hhf : handle_failure db2 sid (some Rout.str) = .ok
        ((db3.setItemStatus li.id .OPEN).setItemStatus fi.id .OPEN) := by
      simp only [handle_failure, hgs2, getItemRef_some]
      have hL2 : db2.getItem L = some { li with status := ItemStatus.NEGOTIATING } := hit2L
      have hF2 : db2.getItem F = some { fi with status := ItemStatus.NEGOTIATING } := hit2F
      rw [hL2, hF2]
    refine ⟨(db3.setItemStatus li.id .OPEN).setItemStatus fi.id .OPEN, false, ?_, ?_, ?_⟩
    · simp only [attemptCandidate, hrfn]
      rw [if_neg hout, hhf]
    · intro hcontra
      exact absurd hcontra (by simp)
    · intro _
      refine ⟨⟨fmNew, ?_, rfl, rfl, rfl⟩, ?_, ?_, ?_⟩
      · show fmNew ∈ (db2.failedMatches ++ [fmNew])
        exact List.mem_append_right _ (by simp)
      · rw [hliid, hfiid]
        have hx : db3.getItem L = some { li with status := ItemStatus.NEGOTIATING } := hit2L
        rw [getItem_setItemStatus_ne (db3.setItemStatus L .OPEN) F .OPEN L hLF,
          getItem_setItemStatus_self db3 L .OPEN _ hx]
        rfl
      · rw [hliid, hfiid]
        have hx : db3.getItem F = some { fi with status := ItemStatus.NEGOTIATING } := hit2F
        have hmid : (db3.setItemStatus L .OPEN).getItem F =
            some { fi with status := ItemStatus.NEGOTIATING } := by
          rw [getItem_setItemStatus_ne db3 L .OPEN F (Ne.symm hLF)]
          exact hx
        rw [getItem_setItemStatus_self (db3.setItemStatus L .OPEN) F .OPEN _ hmid]
        rfl
      · unfold sessionStatus?
        have hgs3 : ((db3.setItemStatus li.id .OPEN).setItemStatus fi.id .OPEN).getSession
            sid = some ⟨sid, some L, some F, Rout.finalStatus, q, Rlog, none, none⟩ := hgs2
        rw [hgs3]
        simp [hfail]

/-- A decision backend that immediately rejects, used to instantiate C8. -/
def dReject : Decider := fun _ _ => (some "REJECT", some "no")

def w8DB : DB :=
  { items := [w3Lost, w3Found], sessions := [], failedMatches := [],
    schedules := [], images := [] }

theorem claim_C8_witness :
    w8DB.getItem 1 = some w3Lost ∧ w8DB.getItem 2 = some w3Found ∧
    ∃ db' succ, attemptCandidate w8DB dReject 9 1 2 0 = (db', succ) ∧
      (succ = false →
        (∃ fm ∈ db'.failedMatches, fm.lost_item_id = some 1 ∧
          fm.found_item_id = some 2 ∧ fm.session_id = some 9) ∧
        (db'.getItem 1).map (fun it => it.status) = some .OPEN ∧
        (db'.getItem 2).map (fun it => it.status) = some .OPEN ∧
        sessionStatus? db' 9 = some .FAILED) := by
  refine ⟨rfl, rfl, ?_⟩
  obtain ⟨db', succ, hac, _, hfailc⟩ :=
    claim_C8 w8DB dReject 9 1 2 0 w3Lost w3Found rfl rfl (by omega)
      (by intro u hu; simp [w8DB] at hu)
  exact ⟨db', succ, hac, hfailc⟩

-- ==================== claim C5 ====================

/-- What `handle_failure` does when the session and both its items exist:
one FailedMatch row for the session's pair is appended, both items become
OPEN, and the sessions table is untouched. -/
theorem handle_failure_spec (db : DB) (sid L F : Nat) (s : NegotiationSession)
    (r : Option String) (hs : db.getSession sid = some s)
    (hsl : s.lost_item_id = some L) (hsf : s.found_item_id = some F)
    (li fi : Item) (hL : db.getItem L = some li) (hF : db.getItem F = some fi)
    (hLF : L ≠ F) :
    ∃ db', handle_failure db sid r = .ok db' ∧
      db'.sessions = db.sessions ∧
      db'.failedMatches = db.failedMatches ++
        [({ lost_item_id := some L, found_item_id := some F, session_id := some sid,
            reason := r } : FailedMatch)] ∧
      (db'.getItem L).map (fun it => it.status) = some .OPEN ∧
      (db'.getItem F).map (fun it => it.status) = some .OPEN := by
  have hliid : li.id = L := id_of_getItem db L li hL
  have hfiid : fi.id = F := id_of_getItem db F fi hF
  set dbf := ({ db with failedMatches := db.failedMatches ++
    [({ lost_item_id := some L, found_item_id := some F, session_id := some sid,
        reason := r } : FailedMatch)] } : DB) with hdbf
  have hrun : handle_failure db sid r = .ok
      ((dbf.setItemStatus li.id .OPEN).setItemStatus fi.id .OPEN) := by
    simp only [handle_failure, hs, hsl, hsf, getItemRef_some]
    rw [hL, hF]
  refine ⟨_, hrun, rfl, rfl, ?_, ?_⟩
  · rw [hliid, hfiid]
    have hx : dbf.getItem L = some li := hL
    rw [getItem_setItemStatus_ne (dbf.setItemStatus L .OPEN) F .OPEN L hLF,
      getItem_setItemStatus_self dbf L .OPEN li hx]
    rfl
  · rw [hliid, hfiid]
    have hmid : (dbf.setItemStatus L .OPEN).getItem F = some fi := by
      rw [getItem_setItemStatus_ne dbf L .OPEN F (Ne.symm hLF)]
      exact hF
    rw [getItem_setItemStatus_self (dbf.setItemStatus L .OPEN) F .OPEN fi hmid]
    rfl

/-- What `handle_success` does when the session and both its items exist:
both items become MATCHED; sessions and FailedMatch rows are untouched. -/
theorem handle_success_spec (db : DB) (sid L F : Nat) (s : NegotiationSession)
    (hs : db.getSession sid = some s)
    (hsl : s.lost_item_id = some L) (hsf : s.found_item_id = some F)
    (li fi : Item) (hL : db.getItem L = some li) (hF : db.getItem F = some fi)
    (hLF : L ≠ F) :
    ∃ db', handle_success db sid = .ok db' ∧
      db'.sessions = db.sessions ∧
      db'.failedMatches = db.failedMatches ∧
      (db'.getItem L).map (fun it => it.status) = some .MATCHED ∧
      (db'.getItem F).map (fun it => it.status) = some .MATCHED := by
  have hliid : li.id = L := id_of_getItem db L li hL
  have hfiid : fi.id = F := id_of_getItem db F fi hF
  have hrun : handle_success db sid = .ok
      ((db.setItemStatus li.id .MATCHED).setItemStatus fi.id .MATCHED) := by
    simp only [handle_success, hs, hsl, hsf, getItemRef_some]
    rw [hL, hF]
  refine ⟨_, hrun, rfl, rfl, ?_, ?_⟩
  · rw [hliid, hfiid]
    rw [getItem_setItemStatus_ne (db.setItemStatus L .MATCHED) F .MATCHED L hLF,
      getItem_setItemStatus_self db L .MATCHED li hL]
    rfl
  · rw [hliid, hfiid]
    have hmid : (db.setItemStatus L .MATCHED).getItem F = some fi := by
      rw [getItem_setItemStatus_ne db L .MATCHED F (Ne.symm hLF)]
      exact hF
    rw [getItem_setItemStatus_self (db.setItemStatus L .MATCHED) F .MATCHED fi hmid]
    rfl

/-- The "not mine" tail of `confirm_item`: REJECTED plus `handle_failure`. -/
theorem confirmTail_reject (db1 : DB) (sid L F : Nat) (s1 : NegotiationSession)
    (hs1 : db1.getSession sid = some s1)
    (hsl : s1.lost_item_id = some L) (hsf : s1.found_item_id = some F)
    (li fi : Item) (hL1 : db1.getItem L = some li) (hF1 : db1.getItem F = some fi)
    (hLF : L ≠ F) :
    ∃ db', confirmTail db1 sid false = .ok db' ∧
      sessionStatus? db' sid = some .REJECTED ∧
      (∃ fm ∈ db'.failedMatches, fm.lost_item_id = some L ∧
        fm.found_item_id = some F ∧ fm.session_id = some sid) ∧
      (db'.getItem L).map (fun it => it.status) = some .OPEN ∧
      (db'.getItem F).map (fun it => it.status) = some .OPEN := by
  have hgs2 : (db1.updSession sid (fun t => { t with status := .REJECTED })).getSession sid =
      some { s1 with status := .REJECTED } :=
    getSession_updSession_self db1 sid
      (fun t => { t with status := .REJECTED }) (fun t => rfl) s1 hs1
  obtain ⟨db', hrun, hsess, hfm, hoL, hoF⟩ :=
    handle_failure_spec (db1.updSession sid (fun t => { t with status := .REJECTED }))
      sid L F { s1 with status := .REJECTED } (some "用户确认不是自己的物品") hgs2
      hsl hsf li fi hL1 hF1 hLF
  refine ⟨db', ?_, ?_, ?_, hoL, hoF⟩
  · simp only [confirmTail, hs1]
    rw [if_pos (by simp)]
    exact hrun
  · unfold sessionStatus? DB.getSession
    rw [hsess]
    have : (db1.updSession sid (fun t => { t with status := NegotiationStatus.REJECTED
        })).getSession sid = some { s1 with status := .REJECTED } := hgs2
    unfold DB.getSession at this
    rw [this]
    rfl
  · rw [hfm]
    exact ⟨({ lost_item_id := some L, found_item_id := some F, session_id := some sid,
              reason := some "用户确认不是自己的物品" } : FailedMatch),
      List.mem_append_right _ (by simp), rfl, rfl, rfl⟩

/-- The "mine, other side still missing" tail of `confirm_item`: only the
flag commit happens. -/
theorem confirmTail_wait (db1 : DB) (sid : Nat) (s1 : NegotiationSession)
    (hs1 : db1.getSession sid = some s1)
    (hflag : ¬ (truthy s1.seeker_confirmed = true ∧ truthy s1.finder_confirmed = true)) :
    confirmTail db1 sid true = .ok db1 := by
  simp only [confirmTail, hs1]
  rw [if_neg (by simp)]
  rw [if_neg (by simpa using hflag)]

/-- The "mine, both flags true" tail of `confirm_item`: CONFIRMED plus
`handle_success`. -/
theorem confirmTail_both (db1 : DB) (sid L F : Nat) (s1 : NegotiationSession)
    (hs1 : db1.getSession sid = some s1)
    (hsk : truthy s1.seeker_confirmed = true) (hfd : truthy s1.finder_confirmed = true)
    (hsl : s1.lost_item_id = some L) (hsf : s1.found_item_id = some F)
    (li fi : Item) (hL1 : db1.getItem L = some li) (hF1 : db1.getItem F = some fi)
    (hLF : L ≠ F) :
    ∃ db', confirmTail db1 sid true = .ok db' ∧
      sessionStatus? db' sid = some .CONFIRMED ∧
      db'.failedMatches = db1.failedMatches ∧
      (db'.getItem L).map (fun it => it.status) = some .MATCHED ∧
      (db'.getItem F).map (fun it => it.status) = some .MATCHED := by
  have hgs2 : (db1.updSession sid (fun t => { t with status := .CONFIRMED })).getSession sid =
      some { s1 with status := .CONFIRMED } :=
    getSession_updSession_self db1 sid
      (fun t => { t with status := .CONFIRMED }) (fun t => rfl) s1 hs1
  obtain ⟨db', hrun, hsess, hfm, hoL, hoF⟩ :=
    handle_success_spec (db1.updSession sid (fun t => { t with status := .CONFIRMED }))
      sid L F { s1 with status := .CONFIRMED } hgs2 hsl hsf li fi hL1 hF1 hLF
  refine ⟨db', ?_, ?_, hfm, hoL, hoF⟩
  · simp only [confirmTail, hs1]
    rw [if_neg (by simp)]
    rw [if_pos ⟨hsk, hfd⟩]
    exact hrun
  · unfold sessionStatus? DB.getSession
    rw [hsess]
    have : (db1.updSession sid (fun t => { t with status := NegotiationStatus.CONFIRMED
        })).getSession sid = some { s1 with status := .CONFIRMED } := hgs2
    unfold DB.getSession at this
    rw [this]
    rfl

theorem refOwnedBy_eq (db : DB) (i uid : Nat) (it : Item) (h : db.getItem i = some it) :
    db.refOwnedBy (some i) uid = decide (it.owner_id = uid) := by
  unfold DB.refOwnedBy
  rw [getItemRef_some, h]

/-- `confirm_item` when the caller owns the lost item: the seeker flag is
written, then the common tail runs. -/
theorem confirm_item_head_seeker (db : DB) (uid sid : Nat) (s : NegotiationSession) (b : Bool)
    (hs : db.getSession sid = some s)
    (href : db.refOwnedBy s.lost_item_id uid = true) :
    confirm_item db uid sid b =
      confirmTail (db.updSession sid (fun t => { t with seeker_confirmed := some b }))
        sid b := by
  simp only [confirm_item, hs]
  rw [if_pos href]

/-- `confirm_item` when the caller owns the found item (and not the lost
one): the finder flag is written, then the common tail runs. -/
theorem confirm_item_head_finder (db : DB) (uid sid : Nat) (s : NegotiationSession) (b : Bool)
    (hs : db.getSession sid = some s)
    (hrefneg : db.refOwnedBy s.lost_item_id uid = false)
    (href : db.refOwnedBy s.found_item_id uid = true) :
    confirm_item db uid sid b =
      confirmTail (db.updSession sid (fun t => { t with finder_confirmed := some b }))
        sid b := by
  simp only [confirm_item, hs]
  rw [if_neg (by simp [hrefneg]), if_pos href]

/-- C5: human confirmation.  Either party's "not mine" makes the session
REJECTED, records a FailedMatch for the pair and reverts both items to
OPEN.  A party's "mine" while the other party's flag is not yet true —
including a repeated "mine" by the same party — commits only that party's
flag and leaves a PENDING_CONFIRM session in PENDING_CONFIRM with items
and FailedMatch rows untouched.  Only when both flags are true does the
session become CONFIRMED with both items MATCHED. -/
theorem claim_C5 (db : DB) (sid L F uS uF : Nat) (s : NegotiationSession)
    (hs : db.getSession sid = some s)
    (hsl : s.lost_item_id = some L) (hsf : s.found_item_id = some F)
    (li fi : Item) (hL : db.getItem L = some li) (hF : db.getItem F = some fi)
    (hlio : li.owner_id = uS) (hfio : fi.owner_id = uF)
    (howners : uS ≠ uF) (hLF : L ≠ F) (hst : s.status = .PENDING_CONFIRM) :
    (∀ u, (u = uS ∨ u = uF) →
      ∃ db', confirm_item db u sid false = .ok db' ∧
        sessionStatus? db' sid = some .REJECTED ∧
        (∃ fm ∈ db'.failedMatches, fm.lost_item_id = some L ∧
          fm.found_item_id = some F ∧ fm.session_id = some sid) ∧
        (db'.getItem L).map (fun it => it.status) = some .OPEN ∧
        (db'.getItem F).map (fun it => it.status) = some .OPEN) ∧
    (truthy s.finder_confirmed = false →
      ∃ db', confirm_item db uS sid true = .ok db' ∧
        db'.getSession sid = some { s with seeker_confirmed := some true } ∧
        sessionStatus? db' sid = some .PENDING_CONFIRM ∧
        db'.items = db.items ∧ db'.failedMatches = db.failedMatches) ∧
    (truthy s.seeker_confirmed = false →
      ∃ db', confirm_item db uF sid true = .ok db' ∧
        db'.getSession sid = some { s with finder_confirmed := some true } ∧
        sessionStatus? db' sid = some .PENDING_CONFIRM ∧
        db'.items = db.items ∧ db'.failedMatches = db.failedMatches) ∧
    (truthy s.finder_confirmed = true →
      ∃ db', confirm_item db uS sid true = .ok db' ∧
        sessionStatus? db' sid = some .CONFIRMED ∧
        db'.failedMatches = db.failedMatches ∧
        (db'.getItem L).map (fun it => it.status) = some .MATCHED ∧
        (db'.getItem F).map (fun it => it.status) = some .MATCHED) ∧
    (truthy s.seeker_confirmed = true →
      ∃ db', confirm_item db uF sid true = .ok db' ∧
        sessionStatus? db' sid = some .CONFIRMED ∧
        db'.failedMatches = db.failedMatches ∧
        (db'.getItem L).map (fun it => it.status) = some .MATCHED ∧
        (db'.getItem F).map (fun it => it.status) = some .MATCHED) := by
  have hrefLS : db.refOwnedBy s.lost_item_id uS = true := by
    rw [hsl, refOwnedBy_eq db L uS li hL]
    simp [hlio]
  have hrefLF : db.refOwnedBy s.lost_item_id uF = false := by
    rw [hsl, refOwnedBy_eq db L uF li hL]
    simp [hlio]
    exact howners
  have hrefFF : db.refOwnedBy s.found_item_id uF = true := by
    rw [hsf, refOwnedBy_eq db F uF fi hF]
    simp [hfio]
  have hs1S : ∀ b, (db.updSession sid
      (fun t => { t with seeker_confirmed := some b })).getSession sid =
      some { s with seeker_confirmed := some b } := fun b =>
    getSession_updSession_self db sid
      (fun t => { t with seeker_confirmed := some b }) (fun t => rfl) s hs
  have hs1F : ∀ b, (db.updSession sid
      (fun t => { t with finder_confirmed := some b })).getSession sid =
      some { s with finder_confirmed := some b } := fun b =>
    getSession_updSession_self db sid
      (fun t => { t with finder_confirmed := some b }) (fun t => rfl) s hs
  refine ⟨?_, ?_, ?_, ?_, ?_⟩
  · intro u hu
    rcases hu with rfl | rfl
    · rw [confirm_item_head_seeker db u sid s false hs hrefLS]
      exact confirmTail_reject _ sid L F _ (hs1S false) hsl hsf li fi hL hF hLF
    · rw [confirm_item_head_finder db u sid s false hs hrefLF hrefFF]
      exact confirmTail_reject _ sid L F _ (hs1F false) hsl hsf li fi hL hF hLF
  · intro hnf
    rw [confirm_item_head_seeker db uS sid s true hs hrefLS]
    rw [confirmTail_wait _ sid _ (hs1S true) (by
      intro hc
      have h2 : truthy s.finder_confirmed = true := hc.2
      rw [hnf] at h2
      exact absurd h2 (by simp))]
    refine ⟨_, rfl, hs1S true, ?_, rfl, rfl⟩
    unfold sessionStatus?
    rw [hs1S true]
    simp [hst]
  · intro hns
    rw [confirm_item_head_finder db uF sid s true hs hrefLF hrefFF]
    rw [confirmTail_wait _ sid _ (hs1F true) (by
      intro hc
      have h2 : truthy s.seeker_confirmed = true := hc.1
      rw [hns] at h2
      exact absurd h2 (by simp))]
    refine ⟨_, rfl, hs1F true, ?_, rfl, rfl⟩
    unfold sessionStatus?
    rw [hs1F true]
    simp [hst]
  · intro htf
    rw [confirm_item_head_seeker db uS sid s true hs hrefLS]
    exact confirmTail_both _ sid L F _ (hs1S true) rfl htf hsl hsf li fi hL hF hLF
  · intro hts
    rw [confirm_item_head_finder db uF sid s true hs hrefLF hrefFF]
    exact confirmTail_both _ sid L F _ (hs1F true) hts rfl hsl hsf li fi hL hF hLF

def w5Sess : NegotiationSession :=
  { id := 5, lost_item_id := some 1, found_item_id := some 2, status := .PENDING_CONFIRM,
    match_score := 0, chat_log := [], seeker_confirmed := none, finder_confirmed := none }

def w5DB : DB :=
  { items := [w3Lost, w3Found], sessions := [w5Sess], failedMatches := [],
    schedules := [], images := [] }

theorem claim_C5_witness :
    w5DB.getSession 5 = some w5Sess ∧ w5Sess.status = .PENDING_CONFIRM ∧
    truthy w5Sess.finder_confirmed = false ∧
    (∃ db', confirm_item w5DB 10 5 true = .ok db' ∧
      sessionStatus? db' 5 = some .PENDING_CONFIRM) ∧
    (∃ db', confirm_item w5DB 10 5 false = .ok db' ∧
      sessionStatus? db' 5 = some .REJECTED) := by
  obtain ⟨ha, hc, _, _, _⟩ :=
    claim_C5 w5DB 5 1 2 10 20 w5Sess rfl rfl rfl w3Lost w3Found rfl rfl rfl rfl
      (by omega) (by omega) rfl
  obtain ⟨dbw, hw1, _, hw2, _, _⟩ := hc rfl
  obtain ⟨dbr, hr1, hr2, _⟩ := ha 10 (Or.inl rfl)
  exact ⟨rfl, rfl, rfl, ⟨dbw, hw1, hw2⟩, ⟨dbr, hr1, hr2⟩⟩

-- ==================== claim C9 ====================

theorem refOwnedBy_congr (db' db : DB) (h : db'.items = db.items) (r : Option Nat)
    (uid : Nat) : db'.refOwnedBy r uid = db.refOwnedBy r uid := by
  unfold DB.refOwnedBy DB.getItemRef DB.getItem
  rw [h]

/-- C9: the schedule round-trip.  From a CONFIRMED session with no schedule
row yet: the finder proposes (time t1, location l1), the seeker rejects
with a non-empty reason — recorded, stripped, on the now-REJECTED row —
the finder re-proposes (t2, l2) overwriting the row and clearing the
stale reason, and the seeker approves.  The session ends WAITING_RETURN
and the session's single schedule row carries the latest proposal's time
and location with status APPROVED and no rejection reason. -/
theorem claim_C9 (db : DB) (sid L F uS uF : Nat) (s : NegotiationSession)
    (t1 t2 : Nat) (l1 l2 : String) (n1 n2 : Option String) (reason : String)
    (hs : db.getSession sid = some s) (hstC : s.status = .CONFIRMED)
    (hsl : s.lost_item_id = some L) (hsf : s.found_item_id = some F)
    (li fi : Item) (hL : db.getItem L = some li) (hF : db.getItem F = some fi)
    (hlio : li.owner_id = uS) (hfio : fi.owner_id = uF)
    (hnosched : ∀ c ∈ db.schedules, c.session_id ≠ sid)
    (htrim : (pyStrip reason) ≠ "") :
    ∃ db1 db2 db3 db4,
      create_schedule db uF sid t1 l1 n1 = .ok db1 ∧
      reject_schedule db1 uS sid reason = .ok db2 ∧
      (∃ c ∈ db2.schedules, c.session_id = sid ∧ c.status = "REJECTED" ∧
        c.reject_reason = some (pyStrip reason)) ∧
      create_schedule db2 uF sid t2 l2 n2 = .ok db3 ∧
      approve_schedule db3 uS sid = .ok db4 ∧
      sessionStatus? db4 sid = some .WAITING_RETURN ∧
      db4.schedules.filter (fun c => c.session_id = sid) =
        [({ session_id := sid, proposed_time := t2, proposed_location := l2, notes := n2,
            status := "APPROVED", reject_reason := none, seeker_confirmed := false,
            finder_confirmed := false } : ReturnSchedule)] := by
  have hrefLS : db.refOwnedBy s.lost_item_id uS = true := by
    rw [hsl, refOwnedBy_eq db L uS li hL]
    simp [hlio]
  have hrefFF : db.refOwnedBy s.found_item_id uF = true := by
    rw [hsf, refOwnedBy_eq db F uF fi hF]
    simp [hfio]
  have hfind0 : db.schedules.find? (fun c => c.session_id = sid) = none :=
    List.find?_eq_none.mpr (fun c hc => by simpa using hnosched c hc)
  -- step 1: first proposal
  set c0 : ReturnSchedule :=
    { session_id := sid, proposed_time := t1, proposed_location := l1, notes := n1,
      status := "PENDING", reject_reason := none, seeker_confirmed := false,
      finder_confirmed := false } with hc0
  set db1 := (({ db with schedules := db.schedules ++ [c0] } : DB).updSession sid
    (fun u => { u with status := NegotiationStatus.SCHEDULE_PENDING })) with hdb1
  have hstep1 : create_schedule db uF sid t1 l1 n1 = .ok db1 := by
    simp only [create_schedule, hs]
    rw [if_neg (by simp [hrefFF]), if_neg (by simp [hstC]), hfind0]
  have hgs1 : db1.getSession sid = some { s with status := .SCHEDULE_PENDING } :=
    getSession_updSession_self _ sid
      (fun u => { u with status := NegotiationStatus.SCHEDULE_PENDING }) (fun t => rfl) s hs
  have hsch1 : db1.schedules = db.schedules ++ [c0] := rfl
  -- step 2: rejection with reason
  set c1 : ReturnSchedule :=
    { c0 with status := "REJECTED", reject_reason := some (pyStrip reason) } with hc1
  set db2 := (({ db1 with schedules := db1.schedules.map (fun c =>
      if c.session_id = sid ∧ c.status = "PENDING" then
        { c with status := "REJECTED", reject_reason := some (pyStrip reason) } else c) } : DB
    ).updSession sid (fun u => { u with status := NegotiationStatus.CONFIRMED })) with hdb2
  have hstep2 : reject_schedule db1 uS sid reason = .ok db2 := by
    simp only [reject_schedule, hgs1]
    rw [if_neg (by
        rw [refOwnedBy_congr db1 db rfl s.lost_item_id uS, hrefLS]
        simp),
      if_neg (by simp), if_neg htrim]
  have hsch2 : db2.schedules = db.schedules ++ [c1] := by
    show (db1.schedules.map (fun c =>
      if c.session_id = sid ∧ c.status = "PENDING" then
        { c with status := "REJECTED", reject_reason := some (pyStrip reason) } else c)) = _
    rw [hsch1, List.map_append]
    rw [map_update_eq_self (fun c => c.session_id = sid ∧ c.status = "PENDING") _
      db.schedules (fun c hc => by simp [hnosched c hc])]
    simp
  have hgs2 : db2.getSession sid = some { s with status := .CONFIRMED } :=
    getSession_updSession_self _ sid
      (fun u => { u with status := NegotiationStatus.CONFIRMED }) (fun t => rfl)
      ({ s with status := .SCHEDULE_PENDING }) hgs1
  -- step 3: second proposal overwrites the rejected row
  set c2 : ReturnSchedule :=
    { session_id := sid, proposed_time := t2, proposed_location := l2, notes := n2,
      status := "PENDING", reject_reason := none, seeker_confirmed := false,
      finder_confirmed := false } with hc2
  have hfind2 : db2.schedules.find? (fun c => c.session_id = sid) = some c1 := by
    rw [hsch2, List.find?_append, hfind0]
    simp [hc1, hc0]
  set db3 := (({ db2 with schedules := db2.schedules.map (fun c =>
      if c.session_id = sid then
        { c with proposed_time := t2, proposed_location := l2, notes := n2,
                 status := "PENDING", reject_reason := none } else c) } : DB
    ).updSession sid (fun u => { u with status := NegotiationStatus.SCHEDULE_PENDING }))
    with hdb3
  have hstep3 : create_schedule db2 uF sid t2 l2 n2 = .ok db3 := by
    simp only [create_schedule, hgs2]
    rw [if_neg (by
        rw [refOwnedBy_congr db2 db rfl s.found_item_id uF, hrefFF]
        simp),
      if_neg (by simp)]
    simp only [hfind2]
    rw [if_neg (by simp [hc1, hc0])]
    rfl
  have hsch3 : db3.schedules = db.schedules ++ [c2] := by
    show (db2.schedules.map (fun c =>
      if c.session_id = sid then
        { c with proposed_time := t2, proposed_location := l2, notes := n2,
                 status := "PENDING", reject_reason := none } else c)) = _
    rw [hsch2, List.map_append]
    rw [map_update_eq_self (fun c => c.session_id = sid) _
      db.schedules (fun c hc => by simpa using hnosched c hc)]
    simp [hc1, hc0, hc2]
  have hgs3 : db3.getSession sid = some { s with status := .SCHEDULE_PENDING } :=
    getSession_updSession_self _ sid
      (fun u => { u with status := NegotiationStatus.SCHEDULE_PENDING }) (fun t => rfl)
      ({ s with status := .CONFIRMED }) hgs2
  -- step 4: approval
  set c3 : ReturnSchedule := { c2 with status := "APPROVED" } with hc3
  set db4 := (({ db3 with schedules := db3.schedules.map (fun c =>
      if c.session_id = sid ∧ c.status = "PENDING" then { c with status := "APPROVED" }
      else c) } : DB).updSession sid
    (fun u => { u with status := NegotiationStatus.WAITING_RETURN })) with hdb4
  have hstep4 : approve_schedule db3 uS sid = .ok db4 := by
    simp only [approve_schedule, hgs3]
    rw [if_neg (by
        rw [refOwnedBy_congr db3 db rfl s.lost_item_id uS, hrefLS]
        simp),
      if_neg (by simp)]
  have hsch4 : db4.schedules = db.schedules ++ [c3] := by
    show (db3.schedules.map (fun c =>
      if c.session_id = sid ∧ c.status = "PENDING" then { c with status := "APPROVED" }
      else c)) = _
    rw [hsch3, List.map_append]
    rw [map_update_eq_self (fun c => c.session_id = sid ∧ c.status = "PENDING") _
      db.schedules (fun c hc => by simp [hnosched c hc])]
    simp [hc2, hc3]
  have hgs4 : db4.getSession sid = some { s with status := .WAITING_RETURN } :=
    getSession_updSession_self _ sid
      (fun u => { u with status := NegotiationStatus.WAITING_RETURN }) (fun t => rfl)
      ({ s with status := .SCHEDULE_PENDING }) hgs3
  refine ⟨db1, db2, db3, db4, hstep1, hstep2, ?_, hstep3, hstep4, ?_, ?_⟩
  · refine ⟨c1, ?_, rfl, rfl, rfl⟩
    rw [hsch2]
    exact List.mem_append_right _ (by simp)
  · unfold sessionStatus?
    rw [hgs4]
    rfl
  · rw [hsch4, List.filter_append]
    have hnil : db.schedules.filter (fun c => c.session_id = sid) = [] := by
      rw [List.filter_eq_nil_iff]
      intro c hc
      simpa using hnosched c hc
    rw [hnil]
    simp [hc3, hc2]

def w9Sess : NegotiationSession :=
  { id := 5, lost_item_id := some 1, found_item_id := some 2, status := .CONFIRMED,
    match_score := 0, chat_log := [], seeker_confirmed := some true,
    finder_confirmed := some true }

def w9DB : DB :=
  { items := [w3Lost, w3Found], sessions := [w9Sess], failedMatches := [],
    schedules := [], images := [] }

theorem claim_C9_witness :
    w9DB.getSession 5 = some w9Sess ∧ w9Sess.status = .CONFIRMED ∧
    pyStrip "too far" ≠ "" ∧
    ∃ db1 db2 db3 db4,
      create_schedule w9DB 20 5 100 "gate A" none = .ok db1 ∧
      reject_schedule db1 10 5 "too far" = .ok db2 ∧
      create_schedule db2 20 5 200 "gate B" none = .ok db3 ∧
      approve_schedule db3 10 5 = .ok db4 ∧
      sessionStatus? db4 5 = some .WAITING_RETURN ∧
      db4.schedules.filter (fun c => c.session_id = 5) =
        [({ session_id := 5, proposed_time := 200, proposed_location := "gate B",
            notes := none, status := "APPROVED", reject_reason := none,
            seeker_confirmed := false, finder_confirmed := false } : ReturnSchedule)] := by
  refine ⟨rfl, rfl, by decide, ?_⟩
  obtain ⟨db1, db2, db3, db4, h1, h2, _, h3, h4, h5, h6⟩ :=
    claim_C9 w9DB 5 1 2 10 20 w9Sess 100 200 "gate A" "gate B" none none "too far"
      rfl rfl rfl rfl w3Lost w3Found rfl rfl rfl rfl
      (by intro c hc; simp [w9DB] at hc) (by decide)
  exact ⟨db1, db2, db3, db4, h1, h2, h3, h4, h5, h6⟩

end CampusLF
